import Mathlib

/-!
Shallow embedding of `source/ml_engine.py` (`create_ensemble_forecasts`), the
orchestration core of the two-stage ensemble forecasting pipeline, together
with models of its external collaborators (quantile extraction, scaling,
augmentation, splitting, trainers, persistence) taken from the specification,
since only `ml_engine.py` is available as source.

Dataframes are modelled as a timestamp index (integers) plus named columns of
optional rationals (`none` models a NaN cell).  Machine floats are modelled by
rationals: no claim depends on rounding.  Python `assert`/`raise` become
`Except String`; the `pickle.dump` of the result file becomes an explicit
`Option Saved` state threaded through the run; the places where the pipeline
touches data or fits a model are recorded in an event trace.
-/

namespace MLEngine

/-- A pandas-like dataframe: integer timestamp index plus named columns of
optional rational cells (`none` = NaN). -/
structure DataFrame where
  index : List Int
  cols : List (String × List (Option Rat))
deriving DecidableEq, Repr, Inhabited

/-- The fresh empty dataframe `pd.DataFrame()`. -/
def DataFrame.empty : DataFrame := ⟨[], []⟩

/-- pandas `df.empty`: true when either axis has length zero. -/
def DataFrame.isEmpty (df : DataFrame) : Bool :=
  df.index.isEmpty || df.cols.isEmpty

/-- Number of NaN (`none`) cells in the dataframe (`df.isna().sum().sum()`). -/
def DataFrame.countNaN (df : DataFrame) : Nat :=
  (df.cols.map (fun c => (c.2.filter (fun x => x.isNone)).length)).sum

/-- Keep the rows whose index satisfies the predicate, in every column. -/
def DataFrame.selectRows (df : DataFrame) (p : Int → Bool) : DataFrame :=
  ⟨df.index.filter p,
   df.cols.map (fun c =>
     (c.1, (df.index.zip c.2).filterMap (fun iv => if p iv.1 then some iv.2 else none)))⟩

/-- The configuration record `ens_params` with the keys read by
`create_ensemble_forecasts`. -/
structure EnsParams where
  model_type : String
  normalize : Bool
  standardize : Bool
  scale_features : Bool
  max_lags : Nat
  forecasters_diversity : Bool
  add_lags : Bool
  augment_with_poly : Bool
  augment_with_roll_stats : Bool
  differenciate : Bool
  add_quantile_predictions : Bool
  quantiles : List Rat
  order_diff : Nat
  differenciate_var : Bool
  max_lags_var : Nat
  add_lags_var : Bool
  augment_with_poly_var : Bool
deriving DecidableEq, Repr

/-- Observable events of a run: the points where the pipeline touches input
data, fits a model, or writes the result file. -/
inductive Event where
  | extractQuantileColumns (q : String)
  | imputeMeanForNan (q : String)
  | fitFirstStage (quantile : Rat)
  | fitSecondStage (quantile : Rat)
deriving DecidableEq, Repr

/-- True exactly on the model-fitting events. -/
def Event.isFit : Event → Bool
  | .fitFirstStage _ => true
  | .fitSecondStage _ => true
  | _ => false

/-- Modelled from the spec (§4.1): `extract_quantile_columns` (from
`source.utils.quantile_preprocess`, not in the provided source) extracts the
subset of columns matching the requested quantile suffix into a narrower
dataframe preserving the original row index. -/
def extract_quantile_columns (df : DataFrame) (quantile : String) : DataFrame :=
  ⟨df.index, df.cols.filter (fun c => c.1.endsWith quantile)⟩

/-- Mean of the present (non-NaN) cells of one column; `none` when every cell
is NaN (pandas: the mean of an all-NaN column is NaN). -/
def colMean (v : List (Option Rat)) : Option Rat :=
  let present := v.filterMap id
  if present.isEmpty then none else some (present.sum / present.length)

/-- Modelled from the spec (§4.1): `impute_mean_for_nan` (from
`source.utils.data_preprocess`, not in the provided source) replaces each
missing cell of a column by the mean of that column, computed over the extracted
frame only. -/
def impute_mean_for_nan (df : DataFrame) : DataFrame :=
  ⟨df.index,
   df.cols.map (fun c =>
     match colMean c.2 with
     | none => c
     | some m => (c.1, c.2.map (fun x => some (x.getD m))))⟩

/-- Error message of `ml_engine.py` line 58. -/
def msg_q50 : String := "Quantile columns q50 were not found in the DataFrame."

/-- Error message of `ml_engine.py` line 64. -/
def msg_lr : String := "Normalize or Standardize must be True for model_type LR"

/-- Error message of `ml_engine.py` line 76. -/
def msg_scale : String := "scale_features must be True if normalize or standardize is True"

/-- Error message of `ml_engine.py` line 79. -/
def msg_both : String := "normalize and standardize cannot both be True"

/-- Output of the preamble of `create_ensemble_forecasts`
(`ml_engine.py` lines 42-79). -/
structure Preamble where
  df_ensemble_quantile50 : DataFrame
  df_ensemble_quantile10 : DataFrame
  df_ensemble_quantile90 : DataFrame
  buyer_resource_name : String
deriving DecidableEq, Repr, Inhabited

/-- The extraction / imputation events of `ml_engine.py` lines 42-54: the
three extractions are unconditional, each imputation happens exactly when its
extraction is non-empty.  These data touches all precede every check of the
preamble. -/
def preamble_trace (df_market : DataFrame) : List Event :=
  [.extractQuantileColumns "q50"] ++
    (if !(extract_quantile_columns df_market "q50").isEmpty then
      [.imputeMeanForNan "q50"] else []) ++
  [.extractQuantileColumns "q10"] ++
    (if !(extract_quantile_columns df_market "q10").isEmpty then
      [.imputeMeanForNan "q10"] else []) ++
  [.extractQuantileColumns "q90"] ++
    (if !(extract_quantile_columns df_market "q90").isEmpty then
      [.imputeMeanForNan "q90"] else [])

/-- Lines 42-79 of `ml_engine.py` as a value: quantile-column extraction with
mean imputation (q50/q10/q90), then the q50 presence check (line 57), the LR
normalisation assert (line 64), the scale-features assert with the Python
operator precedence, i.e. `not (normalize or (standardize and not
scale_features))` (line 76), and the mutual-exclusion assert (line 79). -/
def preamble_check (ens_params : EnsParams) (df_buyer df_market : DataFrame) :
    Except String Preamble :=
  let q50x := extract_quantile_columns df_market "q50"
  let q50 := if !q50x.isEmpty then impute_mean_for_nan q50x else q50x
  let q10x := extract_quantile_columns df_market "q10"
  let q10 := if !q10x.isEmpty then impute_mean_for_nan q10x else q10x
  let q90x := extract_quantile_columns df_market "q90"
  let q90 := if !q90x.isEmpty then impute_mean_for_nan q90x else q90x
  if q50.isEmpty then
    .error msg_q50
  else
    let buyer_resource_name := ((df_buyer.cols.head?).map Prod.fst).getD ""
    if ens_params.model_type = "LR" &&
        !(ens_params.normalize || ens_params.standardize) then
      .error msg_lr
    else if ens_params.normalize || (ens_params.standardize && !ens_params.scale_features) then
      .error msg_scale
    else if ens_params.normalize && ens_params.standardize then
      .error msg_both
    else
      .ok ⟨q50, q10, q90, buyer_resource_name⟩

/-- Lines 42-79 of `ml_engine.py`: the data touches of the preamble and its outcome. -/
def run_preamble (ens_params : EnsParams) (df_buyer df_market : DataFrame) :
    List Event × Except String Preamble :=
  (preamble_trace df_market, preamble_check ens_params df_buyer df_market)

/-- A numpy-style matrix: rows of optional rational cells. -/
abbrev Mat := List (List (Option Rat))

/-- A fitted regression model, as the opaque capability `predict : X → vector`
the spec assigns to the model family (§1, §4.5). -/
abbrev Model := Mat → List (Option Rat)

/-- The persisted best-results-so-far state, keyed by quantile (§3); its
content is produced by the selection policy of the external trainer. -/
abbrev BestResults := List (Rat × Nat)

/-- The external model-family and selection capabilities consumed by the
pipeline (§6: fit/predict and best-result selection are collaborator
contracts this core depends on but does not define). -/
structure ModelOracle where
  fit : Mat → List (Option Rat) → Model
  updateBest : BestResults → Rat → Nat → BestResults
  lr_explain : Model → List Rat × List Rat × String

/-- Modelled from the spec (§4.2): `buyer_scaler_statistics` (from
`source.utils.data_preprocess`, not in the provided source) computes the
scaler record strictly from rows at or before the training cutoff.  The
spread is modelled as mean absolute deviation (a computable stand-in for the
standard deviation; no claim depends on the exact spread value), with safe
divisors for constant data. -/
structure ScalerStats where
  mean : Rat
  std : Rat
  minv : Rat
  rng : Rat
deriving DecidableEq, Repr, Inhabited

/-- Compute `ScalerStats` from the first column of the buyer frame restricted
to the training window (rows at or before the cutoff). -/
def buyer_scaler_statistics (_ens_params : EnsParams) (df_buyer : DataFrame)
    (end_training_timestamp : Int) (_buyer_resource_name : String) : ScalerStats :=
  let train := df_buyer.selectRows (fun t => t ≤ end_training_timestamp)
  let vals := (((train.cols.head?).map Prod.snd).getD []).filterMap id
  let n : Rat := vals.length
  let mean := if vals.isEmpty then 0 else vals.sum / n
  let spread := if vals.isEmpty then 1 else (vals.map (fun x => |x - mean|)).sum / n
  let minv := vals.foldr min 0
  let maxv := vals.foldr max 0
  { mean := mean,
    std := if spread = 0 then 1 else spread,
    minv := minv,
    rng := if maxv - minv = 0 then 1 else maxv - minv }

/-- Forward scaling of one value per the configured method (§4.2):
standardize uses (x - mean)/std, normalize uses (x - min)/range, otherwise
identity. -/
def forward_transform (p : EnsParams) (st : ScalerStats) (x : Rat) : Rat :=
  if p.standardize then (x - st.mean) / st.std
  else if p.normalize then (x - st.minv) / st.rng
  else x

/-- The exact algebraic inverse of `forward_transform` (§4.2 `inverseScale`). -/
def inverse_transform (p : EnsParams) (st : ScalerStats) (x : Rat) : Rat :=
  if p.standardize then x * st.std + st.mean
  else if p.normalize then x * st.rng + st.minv
  else x

/-- Apply the forward transform to every cell of a frame. -/
def applyForward (p : EnsParams) (st : ScalerStats) (df : DataFrame) : DataFrame :=
  ⟨df.index, df.cols.map (fun c => (c.1, c.2.map (Option.map (forward_transform p st))))⟩

/-- Modelled from the spec (§4.2): `scale_forecasters_dataframe` (not in the
provided source) transforms the q50/q10/q90 forecaster frames with the shared
stats, returning equally-shaped frames. -/
def scale_forecasters_dataframe (ens_params : EnsParams) (st : ScalerStats)
    (q50 q10 q90 : DataFrame) (_end_training_timestamp : Int) :
    DataFrame × DataFrame × DataFrame :=
  (applyForward ens_params st q50, applyForward ens_params st q10, applyForward ens_params st q90)

/-- Modelled from the spec (§4.2): `scale_buyer_dataframe` (not in the
provided source) transforms the buyer target frame; the scaled column is
renamed with the `norm_` marker used by `ml_engine.py` line 405. -/
def scale_buyer_dataframe (ens_params : EnsParams) (st : ScalerStats)
    (df_buyer : DataFrame) : DataFrame :=
  ⟨df_buyer.index,
   df_buyer.cols.map (fun c =>
     ("norm_" ++ c.1, c.2.map (Option.map (forward_transform ens_params st))))⟩

/-- Pointwise subtraction on optional cells (NaN-propagating). -/
def optSub : Option Rat → Option Rat → Option Rat
  | some a, some b => some (a - b)
  | _, _ => none

/-- Pointwise addition on optional cells (NaN-propagating). -/
def optAdd : Option Rat → Option Rat → Option Rat
  | some a, some b => some (a + b)
  | _, _ => none

/-- Column shifted down by `k` positions, the first `k` cells becoming NaN. -/
def lagColumn (k : Nat) (v : List (Option Rat)) : List (Option Rat) :=
  List.replicate k none ++ v.take (v.length - k)

/-- First difference of a column, the first cell becoming NaN. -/
def diffColumn (v : List (Option Rat)) : List (Option Rat) :=
  none :: ((v.drop 1).zip v).map (fun p => optSub p.1 p.2)

/-- Rolling mean of window 2 of a column, the first cell becoming NaN. -/
def rollMean2 (v : List (Option Rat)) : List (Option Rat) :=
  none :: ((v.drop 1).zip v).map (fun p => (optAdd p.1 p.2).map (fun s => s / 2))

/-- The map `diffColumn` applied `n` times. -/
def iterDiff : Nat → List (Option Rat) → List (Option Rat)
  | 0, v => v
  | n + 1, v => iterDiff n (diffColumn v)

/-- Modelled from the spec (§4.3): `create_augmented_dataframe` (from
`source.ensemble.stack_generalization.feature_engineering.data_augmentation`,
not in the provided source) derives lag / polynomial / rolling-statistic /
difference columns from a scaled frame, keeping the index; lag features reach
back through the contiguous frame, so every test-window row has populated
lags.  The diversity control over participating columns is collapsed to all
columns participating (no claim depends on it). -/
def create_augmented_dataframe (df : DataFrame) (max_lags : Nat)
    (_forecasters_diversity : Bool) (add_lags : Bool) (augment_with_poly : Bool)
    (augment_with_roll_stats : Bool) (differenciate : Bool)
    (_end_train : Int) (_start_prediction : Int) : DataFrame :=
  let lagCols := if add_lags then
      df.cols.map (fun c =>
        (List.range max_lags).map (fun k =>
          (c.1 ++ "_lag" ++ toString (k + 1), lagColumn (k + 1) c.2))) |>.flatten
    else []
  let polyCols := if augment_with_poly then
      df.cols.map (fun c => (c.1 ++ "_sq", c.2.map (Option.map (fun x => x * x))))
    else []
  let rollCols := if augment_with_roll_stats then
      df.cols.map (fun c => (c.1 ++ "_roll2", rollMean2 c.2))
    else []
  let diffCols := if differenciate then
      df.cols.map (fun c => (c.1 ++ "_diff", diffColumn c.2))
    else []
  ⟨df.index, df.cols ++ lagCols ++ polyCols ++ rollCols ++ diffCols⟩

/-- Modelled from the spec (§4.4): `split_train_test_data` (from
`source.ensemble.stack_generalization.data_preparation.data_train_test`, not
in the provided source) partitions a frame by the timestamp index at the
exact boundary. -/
def split_train_test_data (df : DataFrame) (end_train : Int)
    (start_prediction : Int) : DataFrame × DataFrame :=
  (df.selectRows (fun t => t ≤ end_train),
   df.selectRows (fun t => start_prediction ≤ t))

/-- Modelled from the spec (§4.4, same split pattern): the quantile-frame
variant `split_quantile_train_test_data` (from
`source.utils.quantile_preprocess`, not in the provided source). -/
def split_quantile_train_test_data (df : DataFrame) (end_train : Int)
    (start_prediction : Int) : DataFrame × DataFrame :=
  split_train_test_data df end_train start_prediction

/-- Drop the first `n` rows of a frame. -/
def dropRows (n : Nat) (df : DataFrame) : DataFrame :=
  ⟨df.index.drop n, df.cols.map (fun c => (c.1, c.2.drop n))⟩

/-- Modelled from the spec (§4.4): `concatenate_feat_targ_dataframes` (not in
the provided source) merges feature and target frames by shared index,
dropping the first `max_lag` lag-incomplete rows of the training portion and
failing with `IndexMismatch` when the indices are not identical. -/
def concatenate_feat_targ_dataframes (_buyer_resource_name : String)
    (df_train_ensemble df_test_ensemble df_train df_test : DataFrame)
    (max_lag : Nat) : Except String (DataFrame × DataFrame) :=
  let tf := dropRows max_lag df_train_ensemble
  let tt := dropRows max_lag df_train
  if tf.index ≠ tt.index ∨ df_test_ensemble.index ≠ df_test.index then
    .error "IndexMismatch"
  else
    .ok (⟨tf.index, tf.cols ++ tt.cols⟩,
         ⟨df_test_ensemble.index, df_test_ensemble.cols ++ df_test.cols⟩)

/-- Row-major matrix view of a list of columns with `n` rows. -/
def rowsOf (cols : List (String × List (Option Rat))) (n : Nat) : Mat :=
  (List.range n).map (fun i => cols.map (fun c => c.2.getD i none))

/-- Full row-major matrix of a frame (all columns). -/
def matrixOf (df : DataFrame) : Mat := rowsOf df.cols df.index.length

/-- Modelled from the spec (§4.5 inputs): `get_numpy_Xy_train_test` (not in
the provided source) converts the merged train/test frames to feature
matrices and target vectors; the target is the (last) appended buyer column. -/
def get_numpy_Xy_train_test (df_train_ensemble df_test_ensemble : DataFrame) :
    Mat × List (Option Rat) × Mat × List (Option Rat) :=
  (rowsOf df_train_ensemble.cols.dropLast df_train_ensemble.index.length,
   ((df_train_ensemble.cols.getLast?).map Prod.snd).getD [],
   rowsOf df_test_ensemble.cols.dropLast df_test_ensemble.index.length,
   ((df_test_ensemble.cols.getLast?).map Prod.snd).getD [])

/-- Modelled from the spec (§4.5 optional quantile extras):
`get_numpy_Xy_train_test_quantile` (not in the provided source) converts the
q10/q90 train/test frames to matrices; an empty frame yields an empty
matrix. -/
def get_numpy_Xy_train_test_quantile (_ens_params : EnsParams)
    (df_train_ensemble_quantile10 df_test_ensemble_quantile10 : DataFrame)
    (df_train_ensemble_quantile90 df_test_ensemble_quantile90 : DataFrame) :
    Mat × Mat × Mat × Mat :=
  (matrixOf df_train_ensemble_quantile10, matrixOf df_test_ensemble_quantile10,
   matrixOf df_train_ensemble_quantile90, matrixOf df_test_ensemble_quantile90)

/-- The per-quantile predictions dictionary of the run. -/
abbrev PredDict := List (Rat × List (Option Rat))

/-- Value at a key of the predictions dictionary (empty when absent). -/
def lookupD : PredDict → Rat → List (Option Rat)
  | [], _ => []
  | kv :: rest, q => if kv.1 = q then kv.2 else lookupD rest q

/-- Rewrite the value at one key of the predictions dictionary. -/
def updatePred (d : PredDict) (q : Rat) (f : List (Option Rat) → List (Option Rat)) :
    PredDict :=
  d.map (fun kv => if kv.1 = q then (kv.1, f kv.2) else kv)

/-- Insert or overwrite one key of the predictions dictionary. -/
def setPred : PredDict → Rat → List (Option Rat) → PredDict
  | [], q, v => [(q, v)]
  | kv :: rest, q, v => if kv.1 = q then (q, v) :: rest else kv :: setPred rest q v

/-- Modelled from the spec (§4.7): `rescale_predictions` (from
`source.utils.data_preprocess`, not in the provided source)
inverse-transforms the prediction vector of one quantile back to physical
units; the first- and second-stage passes share the same inverse-transform
logic. -/
def rescale_predictions (predictions : PredDict) (ens_params : EnsParams)
    (st : ScalerStats) (quantile : Rat) (_stage : String) : PredDict :=
  updatePred predictions quantile
    (fun v => v.map (Option.map (inverse_transform ens_params st)))

/-- Modelled from the spec (§4.7): `set_non_negative_predictions` (not in the
provided source) silently sets every negative value of one quantile prediction
vector to zero. -/
def set_non_negative_predictions (predictions : PredDict) (quantile : Rat) : PredDict :=
  updatePred predictions quantile (fun v => v.map (Option.map (fun x => max x 0)))

/-- Modelled from the spec (§4.7): `rescale_targets` (not in the provided
source) inverse-transforms the named target column; the rescaled column
carries the plain `targets` name used by `ml_engine.py` lines 422-423. -/
def rescale_targets (ens_params : EnsParams) (st : ScalerStats) (df : DataFrame)
    (target_name : String) (_stage : String) : DataFrame :=
  ⟨df.index,
   df.cols.map (fun c =>
     if c.1 = target_name then
       ("targets", c.2.map (Option.map (inverse_transform ens_params st)))
     else c)⟩

/-- Modelled from the spec (§4.7): `collect_quantile_ensemble_predictions`
(from `source.ensemble.stack_generalization.utils.results`, not in the
provided source) collects the per-quantile prediction vectors. -/
def collect_quantile_ensemble_predictions (quantiles : List Rat)
    (_df_test : DataFrame) (predictions : PredDict) : PredDict :=
  quantiles.map (fun q => (q, lookupD predictions q))

/-- Printable column tag of a quantile level. -/
def ratName (q : Rat) : String := toString q.num ++ "d" ++ toString q.den

/-- Modelled from the spec (§4.7): `create_ensemble_dataframe` (not in the
provided source) lays the per-quantile prediction vectors out as a wide
table, one column per quantile, on the test index. -/
def create_ensemble_dataframe (buyer_resource_name : String) (quantiles : List Rat)
    (qpd : PredDict) (df_test : DataFrame) : DataFrame :=
  ⟨df_test.index,
   quantiles.map (fun q => (buyer_resource_name ++ "_q" ++ ratName q, lookupD qpd q))⟩

/-- Modelled from the spec (§4.7): `create_var_ensemble_dataframe` (not in
the provided source), the second-stage analogue of
`create_ensemble_dataframe`. -/
def create_var_ensemble_dataframe (buyer_resource_name : String) (quantiles : List Rat)
    (var_predictions_dict : PredDict) (df_2stage_test : DataFrame) : DataFrame :=
  ⟨df_2stage_test.index,
   quantiles.map (fun q =>
     (buyer_resource_name ++ "_var_q" ++ ratName q, lookupD var_predictions_dict q))⟩

/-- A melted (long-format) table: one row per timestamp per variable. -/
abbrev Melted := List (Int × String × Option Rat)

/-- Modelled from the spec (§4.7): `melt_dataframe` (not in the provided
source) reshapes a wide table to long format. -/
def melt_dataframe (df : DataFrame) : Melted :=
  (df.cols.map (fun c => (df.index.zip c.2).map (fun p => (p.1, c.1, p.2)))).flatten

/-- Insert or overwrite one quantile key of a per-quantile record store. -/
def setAssoc {α : Type} : List (Rat × α) → Rat → α → List (Rat × α)
  | [], q, v => [(q, v)]
  | kv :: rest, q, v => if kv.1 = q then (q, v) :: rest else kv :: setAssoc rest q v

/-- Column of a frame by name (empty when absent). -/
def lookupCol (df : DataFrame) (name : String) : List (Option Rat) :=
  ((df.cols.find? (fun c => c.1 == name)).map Prod.snd).getD []

/-- Horizontal concatenation of two row-major matrices; an empty operand is
treated as absent. -/
def hstack (m1 m2 : Mat) : Mat :=
  if m1.isEmpty then m2 else if m2.isEmpty then m1 else m1.zipWith (· ++ ·) m2

/-- Result record of the first-stage per-quantile trainer (§4.5). -/
structure FirstStageResult where
  predictions : PredDict
  best_results : BestResults
  fitted_model : Model
  X_train_augmented : Mat
  X_test_augmented : Mat
  df_train_ensemble_augmented : DataFrame
  coefs : List Rat
  p_values : List Rat
  model_summary : String
deriving Inhabited

/-- Modelled from the spec (§4.5): `predico_ensemble_predictions_per_quantile`
(from `source.ensemble.stack_generalization.ensemble_model`, not in the
provided source).  When configured it incorporates the q10/q90 auxiliary
predictions as extra regressors, fits a model through the external capability,
predicts the test window, records the prediction under the quantile key,
updates the best-so-far state through the external selection policy, and for
the interpretable-linear family exposes coefficients / significance values /
summary. -/
def predico_ensemble_predictions_per_quantile (oracle : ModelOracle)
    (ens_params : EnsParams) (X_train X_test : Mat) (y_train : List (Option Rat))
    (df_train_ensemble : DataFrame) (predictions : PredDict) (quantile : Rat)
    (best_results : BestResults) (iteration : Nat)
    (X_train_quantile10 X_test_quantile10 : Mat)
    (df_train_ensemble_quantile10 : DataFrame)
    (X_train_quantile90 X_test_quantile90 : Mat)
    (df_train_ensemble_quantile90 : DataFrame) : FirstStageResult :=
  let X_train_augmented :=
    if ens_params.add_quantile_predictions then
      hstack (hstack X_train X_train_quantile10) X_train_quantile90
    else X_train
  let X_test_augmented :=
    if ens_params.add_quantile_predictions then
      hstack (hstack X_test X_test_quantile10) X_test_quantile90
    else X_test
  let df_train_ensemble_augmented :=
    if ens_params.add_quantile_predictions then
      ⟨df_train_ensemble.index,
       df_train_ensemble.cols ++ df_train_ensemble_quantile10.cols ++
         df_train_ensemble_quantile90.cols⟩
    else df_train_ensemble
  let fitted_model := oracle.fit X_train_augmented y_train
  let explain := oracle.lr_explain fitted_model
  { predictions := setPred predictions quantile (fitted_model X_test_augmented),
    best_results := oracle.updateBest best_results quantile iteration,
    fitted_model := fitted_model,
    X_train_augmented := X_train_augmented,
    X_test_augmented := X_test_augmented,
    df_train_ensemble_augmented := df_train_ensemble_augmented,
    coefs := explain.1, p_values := explain.2.1, model_summary := explain.2.2 }

/-- Modelled from the spec (§4.6 inputs): `prepare_pre_test_data` (from
`source.ensemble.stack_generalization.data_preparation.data_train_test`, not
in the provided source) rebuilds the test feature matrix (with the q10/q90
extras when configured) and the realized test target vector. -/
def prepare_pre_test_data (ens_params : EnsParams) (_quantile : Rat)
    (df_test_ensemble df_test_ensemble_quantile10 df_test_ensemble_quantile90 : DataFrame) :
    Mat × List (Option Rat) :=
  let x := rowsOf df_test_ensemble.cols.dropLast df_test_ensemble.index.length
  let xaug :=
    if ens_params.add_quantile_predictions then
      hstack (hstack x (matrixOf df_test_ensemble_quantile10))
        (matrixOf df_test_ensemble_quantile90)
    else x
  (xaug, ((df_test_ensemble.cols.getLast?).map Prod.snd).getD [])

/-- Modelled from the spec (§4.6): `create_2stage_dataframe` (from
`source.ensemble.stack_generalization.second_stage.create_data_second_stage`,
not in the provided source) joins the realized target and the first-stage
in-sample / out-of-sample predictions over the concatenated train and test
index. -/
def create_2stage_dataframe (df_train_ensemble df_test_ensemble : DataFrame)
    (y_train y_test predictions_insample predictions_outsample : List (Option Rat)) :
    DataFrame :=
  ⟨df_train_ensemble.index ++ df_test_ensemble.index,
   [("predictions", predictions_insample ++ predictions_outsample),
    ("targets", y_train ++ y_test)]⟩

/-- Modelled from the spec (§4.6): `create_augmented_dataframe_2stage` (not
in the provided source) derives the variability target — the first-stage
residual differenced `order_diff` times — and lag / difference / polynomial
features of the first-stage prediction, per the `*_var` configuration. -/
def create_augmented_dataframe_2stage (df : DataFrame) (order_diff : Nat)
    (differentiate : Bool) (max_lags : Nat) (add_lags : Bool)
    (augment_with_poly : Bool) (_end_train _start_prediction : Int) : DataFrame :=
  let predv := lookupCol df "predictions"
  let targv := lookupCol df "targets"
  let resid := (targv.zip predv).map (fun p => optSub p.1 p.2)
  let variability := iterDiff order_diff resid
  let lagCols := if add_lags then
      (List.range max_lags).map (fun k =>
        ("predictions_lag" ++ toString (k + 1), lagColumn (k + 1) predv))
    else []
  let diffCols := if differentiate then [("predictions_diff", diffColumn predv)] else []
  let polyCols := if augment_with_poly then
      [("predictions_sq", predv.map (Option.map (fun x => x * x)))]
    else []
  ⟨df.index,
   ("predictions", predv) :: (lagCols ++ diffCols ++ polyCols) ++ [("targets", variability)]⟩

/-- Modelled from the spec (§4.6): `get_numpy_Xy_train_test_2stage` (not in
the provided source), the second-stage matrix conversion; the target is the
`targets` column laid out last. -/
def get_numpy_Xy_train_test_2stage (df_2stage_train df_2stage_test : DataFrame) :
    Mat × List (Option Rat) × Mat :=
  (rowsOf df_2stage_train.cols.dropLast df_2stage_train.index.length,
   ((df_2stage_train.cols.getLast?).map Prod.snd).getD [],
   rowsOf df_2stage_test.cols.dropLast df_2stage_test.index.length)

/-- Result record of the second-stage per-quantile trainer (§4.6). -/
structure SecondStageResult where
  variability_predictions : PredDict
  variability_predictions_insample : PredDict
  variability_predictions_outsample : PredDict
  best_results_var : BestResults
  var_fitted_model : Model
deriving Inhabited

/-- Modelled from the spec (§4.6): `predico_ensemble_variability_predictions`
(from `source.ensemble.stack_generalization.ensemble_model`, not in the
provided source) re-runs the per-quantile trainer pattern against the
second-order target, recording out-of-sample, in-sample and test-window
predictions and updating the parallel variability best-so-far state. -/
def predico_ensemble_variability_predictions (oracle : ModelOracle)
    (_ens_params : EnsParams) (X_train_2stage : Mat)
    (y_train_2stage : List (Option Rat)) (X_test_2stage : Mat)
    (variability_predictions : PredDict) (quantile : Rat) (iteration : Nat)
    (best_results_var : BestResults)
    (variability_predictions_insample variability_predictions_outsample : PredDict) :
    SecondStageResult :=
  let var_fitted_model := oracle.fit X_train_2stage y_train_2stage
  { variability_predictions :=
      setPred variability_predictions quantile (var_fitted_model X_test_2stage),
    variability_predictions_insample :=
      setPred variability_predictions_insample quantile (var_fitted_model X_train_2stage),
    variability_predictions_outsample :=
      setPred variability_predictions_outsample quantile (var_fitted_model X_test_2stage),
    best_results_var := oracle.updateBest best_results_var quantile iteration,
    var_fitted_model := var_fitted_model }

/-- Per-quantile first-stage diagnostics stored in the result bundle
(`ml_engine.py` lines 255-262). -/
structure QInfoFirst where
  fitted_model : Model
  X_train_augmented : Mat
  X_test_augmented : Mat
  df_train_ensemble_augmented : DataFrame
  buyer_scaler_stats : ScalerStats
  lr_extras : Option (List Rat × List Rat × String)
deriving Inhabited

/-- Per-quantile second-stage diagnostics stored in the result bundle
(`ml_engine.py` lines 337-346). -/
structure QInfoSecond where
  fitted_model : Model
  var_fitted_model : Model
  X_train_augmented : Mat
  X_test_augmented : Mat
  df_train_ensemble_augmented : DataFrame
  df_train_ensemble : DataFrame
  df_test_ensemble : DataFrame
  y_train : List (Option Rat)
  buyer_scaler_stats : ScalerStats
deriving Inhabited

/-- The normal-mode result bundle (`ml_engine.py` lines 451-461): melted
prediction tables, per-quantile diagnostics, and the updated best-results
maps. -/
structure ResultsNormal where
  previous_lt : Int
  iteration : Nat
  wind_power_predictions : Melted
  wind_power_info_contributions : List (Rat × QInfoFirst)
  wind_power_best_results : BestResults
  wind_power_variability_predictions : Melted
  wind_power_variability_info_contributions : List (Rat × QInfoSecond)
  wind_power_variability_best_results : BestResults
deriving Inhabited

/-- The simulation-mode result bundle (`ml_engine.py` lines 426-439): wide
(non-melted) tables with targets, diagnostics, best-results maps, and the
ramp in-sample / out-of-sample tables. -/
structure ResultsSim where
  previous_lt : Int
  iteration : Nat
  wind_power_predictions : DataFrame
  wind_power_info_contributions : List (Rat × QInfoFirst)
  wind_power_best_results : BestResults
  wind_power_variability_predictions : DataFrame
  wind_power_variability_info_contributions : List (Rat × QInfoSecond)
  wind_power_variability_best_results : BestResults
  wind_power_ramp_predictions_outsample : DataFrame
  wind_power_ramp_predictions_insample : DataFrame
deriving Inhabited

/-- The durable state file content: the previously serialized result bundle
(the shape of either mode). -/
inductive Saved where
  | normalResults (r : ResultsNormal)
  | simulationResults (r : ResultsSim)
deriving Inhabited

/-- Modelled from the spec (§4.8): `load_or_initialize_results` (from
`source.utils.session_ml_info`, not in the provided source).  With no prior
state: iteration 0 and empty best-results records; otherwise the prior
best-results maps of the prior bundle and its iteration counter incremented.  The file
path the original returns is replaced by the explicitly threaded state. -/
def load_or_initialize_results (prior : Option Saved) : Nat × BestResults × BestResults :=
  match prior with
  | none => (0, [], [])
  | some (.normalResults r) =>
      (r.iteration + 1, r.wind_power_best_results, r.wind_power_variability_best_results)
  | some (.simulationResults r) =>
      (r.iteration + 1, r.wind_power_best_results, r.wind_power_variability_best_results)

/-- Error message of `ml_engine.py` lines 163 and 302. -/
def msg_len : String := "Test dataframe must have 96 rows"

/-- Error message of `ml_engine.py` line 184. -/
def msg_index : String := "Datetime index are not equal"

/-- Message for the bare assert of `ml_engine.py` line 198. -/
def msg_nan : String := "AssertionError"

/-- Error message of `ml_engine.py` line 419. -/
def msg_sim : String := "challenge_usecase must be simulation"

/-- Error message of `ml_engine.py` line 465. -/
def msg_usecase : String :=
  "challenge_usecase must be either wind_power or wind_power_variability"

/-- Message for the Python NameError raised when the result dictionaries
reference the second-stage tables and quantile 0.5 never ran. -/
def msg_second : String := "NameError: second stage results are not defined"

/-- The frames computed by `ml_engine.py` lines 82-157: scaler statistics,
scaled and augmented forecaster frames, scaled buyer frame split into
train/test targets, and the concatenated train/test ensemble frames. -/
structure Frames1 where
  buyer_scaler_stats : ScalerStats
  df_ensemble_normalized_quantile10 : DataFrame
  df_ensemble_normalized_quantile90 : DataFrame
  df_ensemble_normalized_lag_quantile10 : DataFrame
  df_ensemble_normalized_lag_quantile90 : DataFrame
  df_train_targ : DataFrame
  df_test_targ : DataFrame
  df_train_ensemble : DataFrame
  df_test_ensemble : DataFrame
deriving DecidableEq, Repr, Inhabited

/-- The scaled q50 forecaster frame of `ml_engine.py` line 90. -/
def normalized_q50 (ens_params : EnsParams) (pre : Preamble) (df_buyer : DataFrame)
    (end_training_timestamp : Int) : DataFrame :=
  (scale_forecasters_dataframe ens_params
    (buyer_scaler_statistics ens_params df_buyer end_training_timestamp
      pre.buyer_resource_name)
    pre.df_ensemble_quantile50 pre.df_ensemble_quantile10 pre.df_ensemble_quantile90
    end_training_timestamp).1

/-- The scaled q10 forecaster frame of `ml_engine.py` line 90. -/
def normalized_quantile10 (ens_params : EnsParams) (pre : Preamble) (df_buyer : DataFrame)
    (end_training_timestamp : Int) : DataFrame :=
  (scale_forecasters_dataframe ens_params
    (buyer_scaler_statistics ens_params df_buyer end_training_timestamp
      pre.buyer_resource_name)
    pre.df_ensemble_quantile50 pre.df_ensemble_quantile10 pre.df_ensemble_quantile90
    end_training_timestamp).2.1

/-- The scaled q90 forecaster frame of `ml_engine.py` line 90. -/
def normalized_quantile90 (ens_params : EnsParams) (pre : Preamble) (df_buyer : DataFrame)
    (end_training_timestamp : Int) : DataFrame :=
  (scale_forecasters_dataframe ens_params
    (buyer_scaler_statistics ens_params df_buyer end_training_timestamp
      pre.buyer_resource_name)
    pre.df_ensemble_quantile50 pre.df_ensemble_quantile10 pre.df_ensemble_quantile90
    end_training_timestamp).2.2

/-- The augmented q50 frame of `ml_engine.py` lines 96-104. -/
def lagged_ensemble (ens_params : EnsParams) (pre : Preamble) (df_buyer : DataFrame)
    (end_training_timestamp start_prediction_timestamp : Int) : DataFrame :=
  create_augmented_dataframe (normalized_q50 ens_params pre df_buyer end_training_timestamp)
    ens_params.max_lags ens_params.forecasters_diversity ens_params.add_lags
    ens_params.augment_with_poly ens_params.augment_with_roll_stats
    ens_params.differenciate end_training_timestamp start_prediction_timestamp

/-- The augmented q10 frame of `ml_engine.py` lines 107-123 / 139-140: a
fresh empty frame when `add_quantile_predictions` is off or the scaled q10
frame is empty. -/
def lag_quantile10 (ens_params : EnsParams) (pre : Preamble) (df_buyer : DataFrame)
    (end_training_timestamp start_prediction_timestamp : Int) : DataFrame :=
  if ens_params.add_quantile_predictions then
    if !(normalized_quantile10 ens_params pre df_buyer end_training_timestamp).isEmpty then
      create_augmented_dataframe
        (normalized_quantile10 ens_params pre df_buyer end_training_timestamp)
        ens_params.max_lags ens_params.forecasters_diversity ens_params.add_lags
        ens_params.augment_with_poly ens_params.augment_with_roll_stats
        ens_params.differenciate end_training_timestamp start_prediction_timestamp
    else DataFrame.empty
  else DataFrame.empty

/-- The augmented q90 frame of `ml_engine.py` lines 125-140. -/
def lag_quantile90 (ens_params : EnsParams) (pre : Preamble) (df_buyer : DataFrame)
    (end_training_timestamp start_prediction_timestamp : Int) : DataFrame :=
  if ens_params.add_quantile_predictions then
    if !(normalized_quantile90 ens_params pre df_buyer end_training_timestamp).isEmpty then
      create_augmented_dataframe
        (normalized_quantile90 ens_params pre df_buyer end_training_timestamp)
        ens_params.max_lags ens_params.forecasters_diversity ens_params.add_lags
        ens_params.augment_with_poly ens_params.augment_with_roll_stats
        ens_params.differenciate end_training_timestamp start_prediction_timestamp
    else DataFrame.empty
  else DataFrame.empty

/-- The scaled buyer frame of `ml_engine.py` line 143, split at the cutoff
(line 150). -/
def buyer_split (ens_params : EnsParams) (pre : Preamble) (df_buyer : DataFrame)
    (end_training_timestamp start_prediction_timestamp : Int) : DataFrame × DataFrame :=
  split_train_test_data
    (scale_buyer_dataframe ens_params
      (buyer_scaler_statistics ens_params df_buyer end_training_timestamp
        pre.buyer_resource_name)
      df_buyer)
    end_training_timestamp start_prediction_timestamp

/-- The augmented q50 frame split at the cutoff (`ml_engine.py` line 146). -/
def feat_split (ens_params : EnsParams) (pre : Preamble) (df_buyer : DataFrame)
    (end_training_timestamp start_prediction_timestamp : Int) : DataFrame × DataFrame :=
  split_train_test_data
    (lagged_ensemble ens_params pre df_buyer end_training_timestamp
      start_prediction_timestamp)
    end_training_timestamp start_prediction_timestamp

/-- Lines 82-157 of `ml_engine.py`: compute scaler statistics, scale the
forecaster and buyer frames, augment (q50 always; q10/q90 only when
`add_quantile_predictions` and non-empty, else fresh empty frames — lines
107-140), split both at the cutoff, and merge features with targets. -/
def first_stage_frames (ens_params : EnsParams) (pre : Preamble)
    (df_buyer : DataFrame) (end_training_timestamp start_prediction_timestamp : Int) :
    Except String Frames1 :=
  match concatenate_feat_targ_dataframes pre.buyer_resource_name
      (feat_split ens_params pre df_buyer end_training_timestamp
        start_prediction_timestamp).1
      (feat_split ens_params pre df_buyer end_training_timestamp
        start_prediction_timestamp).2
      (buyer_split ens_params pre df_buyer end_training_timestamp
        start_prediction_timestamp).1
      (buyer_split ens_params pre df_buyer end_training_timestamp
        start_prediction_timestamp).2
      ens_params.max_lags with
  | .error e => .error e
  | .ok merged =>
      .ok ⟨buyer_scaler_statistics ens_params df_buyer end_training_timestamp
             pre.buyer_resource_name,
           normalized_quantile10 ens_params pre df_buyer end_training_timestamp,
           normalized_quantile90 ens_params pre df_buyer end_training_timestamp,
           lag_quantile10 ens_params pre df_buyer end_training_timestamp
             start_prediction_timestamp,
           lag_quantile90 ens_params pre df_buyer end_training_timestamp
             start_prediction_timestamp,
           (buyer_split ens_params pre df_buyer end_training_timestamp
             start_prediction_timestamp).1,
           (buyer_split ens_params pre df_buyer end_training_timestamp
             start_prediction_timestamp).2,
           merged.1, merged.2⟩

/-- Everything `ml_engine.py` lines 82-198 hand to the per-quantile loop. -/
structure Assembled where
  frames1 : Frames1
  df_train_ensemble_quantile10 : DataFrame
  df_test_ensemble_quantile10 : DataFrame
  df_train_ensemble_quantile90 : DataFrame
  df_test_ensemble_quantile90 : DataFrame
  X_train : Mat
  y_train : List (Option Rat)
  X_test : Mat
  X_train_quantile10 : Mat
  X_test_quantile10 : Mat
  X_train_quantile90 : Mat
  X_test_quantile90 : Mat
deriving DecidableEq, Repr, Inhabited

/-- Lines 166-172 of `ml_engine.py`: the q10 train/test split, degrading to
fresh empty frames when `add_quantile_predictions` is off or the normalized
q10 frame is empty. -/
def quantile_pair10 (ens_params : EnsParams) (f : Frames1)
    (end_training_timestamp start_prediction_timestamp : Int) :
    DataFrame × DataFrame :=
  if ens_params.add_quantile_predictions then
    if !f.df_ensemble_normalized_quantile10.isEmpty then
      split_quantile_train_test_data f.df_ensemble_normalized_lag_quantile10
        end_training_timestamp start_prediction_timestamp
    else (DataFrame.empty, DataFrame.empty)
  else (DataFrame.empty, DataFrame.empty)

/-- Lines 173-180 of `ml_engine.py`: the q90 analogue of `quantile_pair10`. -/
def quantile_pair90 (ens_params : EnsParams) (f : Frames1)
    (end_training_timestamp start_prediction_timestamp : Int) :
    DataFrame × DataFrame :=
  if ens_params.add_quantile_predictions then
    if !f.df_ensemble_normalized_quantile90.isEmpty then
      split_quantile_train_test_data f.df_ensemble_normalized_lag_quantile90
        end_training_timestamp start_prediction_timestamp
    else (DataFrame.empty, DataFrame.empty)
  else (DataFrame.empty, DataFrame.empty)

/-- Lines 82-198 of `ml_engine.py`: the frame computation of lines 82-157, then
the three checks in source order — the 96-row test-window assert (line 163),
the index-equality assert (line 184), and the no-NaN assert on the training
ensemble (line 198) — with the pure quantile splits (lines 166-180) and
numpy conversions (lines 187-195) inlined into the success record. -/
def assemble_stage (ens_params : EnsParams) (pre : Preamble) (df_buyer : DataFrame)
    (end_training_timestamp start_prediction_timestamp : Int) :
    Except String Assembled :=
  match first_stage_frames ens_params pre df_buyer
      end_training_timestamp start_prediction_timestamp with
  | .error e => .error e
  | .ok f =>
    if f.df_test_ensemble.index.length ≠ 96 then .error msg_len
    else if f.df_test_targ.index ≠ f.df_test_ensemble.index then .error msg_index
    else if f.df_train_ensemble.countNaN ≠ 0 then .error msg_nan
    else
      .ok { frames1 := f,
            df_train_ensemble_quantile10 :=
              (quantile_pair10 ens_params f end_training_timestamp
                start_prediction_timestamp).1,
            df_test_ensemble_quantile10 :=
              (quantile_pair10 ens_params f end_training_timestamp
                start_prediction_timestamp).2,
            df_train_ensemble_quantile90 :=
              (quantile_pair90 ens_params f end_training_timestamp
                start_prediction_timestamp).1,
            df_test_ensemble_quantile90 :=
              (quantile_pair90 ens_params f end_training_timestamp
                start_prediction_timestamp).2,
            X_train :=
              (get_numpy_Xy_train_test f.df_train_ensemble f.df_test_ensemble).1,
            y_train :=
              (get_numpy_Xy_train_test f.df_train_ensemble f.df_test_ensemble).2.1,
            X_test :=
              (get_numpy_Xy_train_test f.df_train_ensemble f.df_test_ensemble).2.2.1,
            X_train_quantile10 :=
              (get_numpy_Xy_train_test_quantile ens_params
                (quantile_pair10 ens_params f end_training_timestamp
                  start_prediction_timestamp).1
                (quantile_pair10 ens_params f end_training_timestamp
                  start_prediction_timestamp).2
                (quantile_pair90 ens_params f end_training_timestamp
                  start_prediction_timestamp).1
                (quantile_pair90 ens_params f end_training_timestamp
                  start_prediction_timestamp).2).1,
            X_test_quantile10 :=
              (get_numpy_Xy_train_test_quantile ens_params
                (quantile_pair10 ens_params f end_training_timestamp
                  start_prediction_timestamp).1
                (quantile_pair10 ens_params f end_training_timestamp
                  start_prediction_timestamp).2
                (quantile_pair90 ens_params f end_training_timestamp
                  start_prediction_timestamp).1
                (quantile_pair90 ens_params f end_training_timestamp
                  start_prediction_timestamp).2).2.1,
            X_train_quantile90 :=
              (get_numpy_Xy_train_test_quantile ens_params
                (quantile_pair10 ens_params f end_training_timestamp
                  start_prediction_timestamp).1
                (quantile_pair10 ens_params f end_training_timestamp
                  start_prediction_timestamp).2
                (quantile_pair90 ens_params f end_training_timestamp
                  start_prediction_timestamp).1
                (quantile_pair90 ens_params f end_training_timestamp
                  start_prediction_timestamp).2).2.2.1,
            X_test_quantile90 :=
              (get_numpy_Xy_train_test_quantile ens_params
                (quantile_pair10 ens_params f end_training_timestamp
                  start_prediction_timestamp).1
                (quantile_pair10 ens_params f end_training_timestamp
                  start_prediction_timestamp).2
                (quantile_pair90 ens_params f end_training_timestamp
                  start_prediction_timestamp).1
                (quantile_pair90 ens_params f end_training_timestamp
                  start_prediction_timestamp).2).2.2.2 }

/-- The pure frame computation of the second stage (`ml_engine.py` lines
281-296): 2-stage dataframe, `*_var` augmentation, and the train/test split. -/
def second_stage_frames (ens_params : EnsParams)
    (df_train_ensemble df_test_ensemble : DataFrame)
    (y_train y_test predictions_insample predictions_outsample : List (Option Rat))
    (end_training_timestamp start_prediction_timestamp : Int) :
    DataFrame × DataFrame :=
  let df_2stage := create_2stage_dataframe df_train_ensemble df_test_ensemble
    y_train y_test predictions_insample predictions_outsample
  let df_2stage_buyer := create_augmented_dataframe_2stage df_2stage
    ens_params.order_diff ens_params.differenciate_var ens_params.max_lags_var
    ens_params.add_lags_var ens_params.augment_with_poly_var
    end_training_timestamp start_prediction_timestamp
  split_train_test_data df_2stage_buyer end_training_timestamp start_prediction_timestamp

/-- Second-stage outputs carried out of the 0.5-quantile iteration. -/
structure SecondOut where
  df_var_ensemble : DataFrame
  df_var_ensemble_melt : Melted
  df_2stage_test : DataFrame
  previous_day_results_second_stage : List (Rat × QInfoSecond)
  best_results_var : BestResults
  var_pred_insample_df : DataFrame
  var_pred_outsample_df : DataFrame
deriving Inhabited

/-- Mutable state of the inner (second-stage) per-quantile loop
(`ml_engine.py` lines 307-355). -/
structure InnerState where
  variability_predictions : PredDict
  variability_predictions_insample : PredDict
  variability_predictions_outsample : PredDict
  best_results_var : BestResults
  previous_day_results_second_stage : List (Rat × QInfoSecond)
  var_pred_insample_df : DataFrame
  var_pred_outsample_df : DataFrame
deriving Inhabited

/-- Lines 315-355 of `ml_engine.py`, one iteration: run the variability trainer,
store the per-quantile diagnostics (note line 340 stores the test matrix
reassigned at line 271), rescale the three variability dictionaries at this
quantile (lines 348-351, with no non-negativity clipping), and rebuild the
in-sample/out-of-sample wide tables (lines 354-355). -/
def second_stage_inner_body (oracle : ModelOracle) (ens_params : EnsParams)
    (buyer_scaler_stats : ScalerStats) (first : FirstStageResult)
    (x_test_augmented_2 : Mat) (df_train_ensemble df_test_ensemble : DataFrame)
    (y_train : List (Option Rat)) (df_2stage_train df_2stage_test : DataFrame)
    (X_train_2stage : Mat) (y_train_2stage : List (Option Rat)) (X_test_2stage : Mat)
    (iteration : Nat) (st : InnerState) (quantile : Rat) : InnerState :=
  let r := predico_ensemble_variability_predictions oracle ens_params
    X_train_2stage y_train_2stage X_test_2stage st.variability_predictions
    quantile iteration st.best_results_var
    st.variability_predictions_insample st.variability_predictions_outsample
  let info : QInfoSecond :=
    ⟨first.fitted_model, r.var_fitted_model, first.X_train_augmented,
     x_test_augmented_2, first.df_train_ensemble_augmented,
     df_train_ensemble, df_test_ensemble, y_train, buyer_scaler_stats⟩
  let variability_predictions :=
    rescale_predictions r.variability_predictions ens_params buyer_scaler_stats quantile "2nd"
  let variability_predictions_insample :=
    rescale_predictions r.variability_predictions_insample ens_params buyer_scaler_stats
      quantile "2nd"
  let variability_predictions_outsample :=
    rescale_predictions r.variability_predictions_outsample ens_params buyer_scaler_stats
      quantile "2nd"
  { variability_predictions := variability_predictions,
    variability_predictions_insample := variability_predictions_insample,
    variability_predictions_outsample := variability_predictions_outsample,
    best_results_var := r.best_results_var,
    previous_day_results_second_stage :=
      setAssoc st.previous_day_results_second_stage quantile info,
    var_pred_insample_df :=
      ⟨df_2stage_train.index,
       variability_predictions_insample.map (fun kv => (ratName kv.1, kv.2))⟩,
    var_pred_outsample_df :=
      ⟨df_2stage_test.index,
       variability_predictions_outsample.map (fun kv => (ratName kv.1, kv.2))⟩ }

/-- The inner per-quantile loop of `ml_engine.py` lines 315-355, with its
fit events. -/
def second_stage_inner_loop (oracle : ModelOracle) (ens_params : EnsParams)
    (buyer_scaler_stats : ScalerStats) (first : FirstStageResult)
    (x_test_augmented_2 : Mat) (df_train_ensemble df_test_ensemble : DataFrame)
    (y_train : List (Option Rat)) (df_2stage_train df_2stage_test : DataFrame)
    (X_train_2stage : Mat) (y_train_2stage : List (Option Rat)) (X_test_2stage : Mat)
    (iteration : Nat) : List Rat → InnerState → List Event × InnerState
  | [], st => ([], st)
  | quantile :: rest, st =>
    let st1 := second_stage_inner_body oracle ens_params buyer_scaler_stats first
      x_test_augmented_2 df_train_ensemble df_test_ensemble y_train
      df_2stage_train df_2stage_test X_train_2stage y_train_2stage X_test_2stage
      iteration st quantile
    let next := second_stage_inner_loop oracle ens_params buyer_scaler_stats first
      x_test_augmented_2 df_train_ensemble df_test_ensemble y_train
      df_2stage_train df_2stage_test X_train_2stage y_train_2stage X_test_2stage
      iteration rest st1
    (Event.fitSecondStage quantile :: next.1, next.2)

/-- Lines 265-372 of `ml_engine.py`: the second-stage (variability) pipeline
triggered at quantile 0.5 — rebuild the test matrix (line 271), produce
first-stage in-sample and out-of-sample predictions (lines 273-274), build and split
the 2-stage frame, assert the 96-row test window (line 302), run the inner
per-quantile loop, rescale the 2-stage targets, and assemble the wide and
melted variability tables. -/
def second_stage (oracle : ModelOracle) (ens_params : EnsParams)
    (buyer_scaler_stats : ScalerStats) (first : FirstStageResult)
    (df_train_ensemble df_test_ensemble : DataFrame)
    (df_test_ensemble_quantile10 df_test_ensemble_quantile90 : DataFrame)
    (y_train : List (Option Rat)) (best_results_var : BestResults) (iteration : Nat)
    (buyer_resource_name : String)
    (end_training_timestamp start_prediction_timestamp : Int) :
    List Event × Except String SecondOut :=
  let pre_test := prepare_pre_test_data ens_params (1/2 : Rat) df_test_ensemble
    df_test_ensemble_quantile10 df_test_ensemble_quantile90
  let predictions_insample := first.fitted_model first.X_train_augmented
  let predictions_outsample := first.fitted_model pre_test.1
  let split2 := second_stage_frames ens_params df_train_ensemble df_test_ensemble
    y_train pre_test.2 predictions_insample predictions_outsample
    end_training_timestamp start_prediction_timestamp
  if split2.2.index.length ≠ 96 then ([], .error msg_len)
  else
    let xy2 := get_numpy_Xy_train_test_2stage split2.1 split2.2
    let st0 : InnerState := ⟨[], [], [], best_results_var, [], DataFrame.empty, DataFrame.empty⟩
    let inner := second_stage_inner_loop oracle ens_params buyer_scaler_stats first
      pre_test.1 df_train_ensemble df_test_ensemble y_train split2.1 split2.2
      xy2.1 xy2.2.1 xy2.2.2 iteration ens_params.quantiles st0
    let df_2stage_test := rescale_targets ens_params buyer_scaler_stats split2.2
      "targets" "2nd"
    let var_predictions_dict := collect_quantile_ensemble_predictions
      ens_params.quantiles df_2stage_test inner.2.variability_predictions
    let df_var_ensemble := create_var_ensemble_dataframe buyer_resource_name
      ens_params.quantiles var_predictions_dict df_2stage_test
    (inner.1,
     .ok ⟨df_var_ensemble, melt_dataframe df_var_ensemble, df_2stage_test,
          inner.2.previous_day_results_second_stage, inner.2.best_results_var,
          inner.2.var_pred_insample_df, inner.2.var_pred_outsample_df⟩)

/-- Mutable state of the outer (first-stage) per-quantile loop
(`ml_engine.py` lines 214-376). -/
structure LoopState where
  predictions : PredDict
  best_results : BestResults
  best_results_var : BestResults
  previous_day_results_first_stage : List (Rat × QInfoFirst)
  second : Option SecondOut
deriving Inhabited

/-- The outer per-quantile loop of `ml_engine.py` lines 223-376: run the
first-stage trainer, store the per-quantile diagnostics (with the LR extras
when the model family is LR, lines 261-262), and at quantile 0.5 run the
whole second-stage pipeline. -/
def first_stage_loop (oracle : ModelOracle) (ens_params : EnsParams) (pre : Preamble)
    (a : Assembled) (iteration : Nat)
    (end_training_timestamp start_prediction_timestamp : Int) :
    List Rat → LoopState → List Event × Except String LoopState
  | [], s => ([], .ok s)
  | quantile :: rest, s =>
    let res := predico_ensemble_predictions_per_quantile oracle ens_params
      a.X_train a.X_test a.y_train a.frames1.df_train_ensemble s.predictions quantile
      s.best_results iteration a.X_train_quantile10 a.X_test_quantile10
      a.df_train_ensemble_quantile10 a.X_train_quantile90 a.X_test_quantile90
      a.df_train_ensemble_quantile90
    let info : QInfoFirst :=
      ⟨res.fitted_model, res.X_train_augmented, res.X_test_augmented,
       res.df_train_ensemble_augmented, a.frames1.buyer_scaler_stats,
       if ens_params.model_type = "LR" then
         some (res.coefs, res.p_values, res.model_summary)
       else none⟩
    let s1 : LoopState :=
      { predictions := res.predictions, best_results := res.best_results,
        best_results_var := s.best_results_var,
        previous_day_results_first_stage :=
          setAssoc s.previous_day_results_first_stage quantile info,
        second := s.second }
    if quantile = (1/2 : Rat) then
      let sec := second_stage oracle ens_params a.frames1.buyer_scaler_stats res
        a.frames1.df_train_ensemble a.frames1.df_test_ensemble
        a.df_test_ensemble_quantile10 a.df_test_ensemble_quantile90
        a.y_train s1.best_results_var iteration pre.buyer_resource_name
        end_training_timestamp start_prediction_timestamp
      match sec.2 with
      | .error e => (Event.fitFirstStage quantile :: sec.1, .error e)
      | .ok so =>
        let s2 : LoopState :=
          { s1 with second := some so, best_results_var := so.best_results_var }
        let next := first_stage_loop oracle ens_params pre a iteration
          end_training_timestamp start_prediction_timestamp rest s2
        (Event.fitFirstStage quantile :: (sec.1 ++ next.1), next.2)
    else
      let next := first_stage_loop oracle ens_params pre a iteration
        end_training_timestamp start_prediction_timestamp rest s1
      (Event.fitFirstStage quantile :: next.1, next.2)

/-- Lines 393-398 of `ml_engine.py`: per configured quantile, rescale the
first-stage predictions to physical units and then set negative values to
zero. -/
def rescale_clip_loop (ens_params : EnsParams) (buyer_scaler_stats : ScalerStats) :
    List Rat → PredDict → PredDict
  | [], predictions => predictions
  | quantile :: rest, predictions =>
      rescale_clip_loop ens_params buyer_scaler_stats rest
        (set_non_negative_predictions
          (rescale_predictions predictions ens_params buyer_scaler_stats quantile "1st")
          quantile)

/-- The concatenation `pd.concat([df, dfT["targets"]], axis=1)` of `ml_engine.py` lines
422-423. -/
def concat_targets (df dft : DataFrame) : DataFrame :=
  ⟨df.index, df.cols ++ [("targets", lookupCol dft "targets")]⟩

/-- What `create_ensemble_forecasts` returns: the melted predictions table of
the requested usecase in normal mode, or the whole bundle in simulation
mode. -/
inductive RunReturn where
  | normalPredictions (m : Melted)
  | simulationBundle (b : ResultsSim)
deriving Inhabited

/-- The `results_challenge_dict_simulation` of `ml_engine.py` lines 426-439:
wide tables with targets, diagnostics, best-results maps, and the ramp
tables. -/
def build_results_simulation (end_training_timestamp : Int) (iteration : Nat)
    (s : LoopState) (so : SecondOut) (df_test_targ df_pred_ensemble : DataFrame) :
    ResultsSim :=
  { previous_lt := end_training_timestamp,
    iteration := iteration,
    wind_power_predictions := concat_targets df_pred_ensemble df_test_targ,
    wind_power_info_contributions := s.previous_day_results_first_stage,
    wind_power_best_results := s.best_results,
    wind_power_variability_predictions :=
      concat_targets so.df_var_ensemble so.df_2stage_test,
    wind_power_variability_info_contributions :=
      so.previous_day_results_second_stage,
    wind_power_variability_best_results := so.best_results_var,
    wind_power_ramp_predictions_outsample := so.var_pred_outsample_df,
    wind_power_ramp_predictions_insample := so.var_pred_insample_df }

/-- The `results_challenge_dict` of `ml_engine.py` lines 451-461. -/
def build_results_normal (end_training_timestamp : Int) (iteration : Nat)
    (s : LoopState) (so : SecondOut) (df_pred_ensemble : DataFrame) :
    ResultsNormal :=
  { previous_lt := end_training_timestamp,
    iteration := iteration,
    wind_power_predictions := melt_dataframe df_pred_ensemble,
    wind_power_info_contributions := s.previous_day_results_first_stage,
    wind_power_best_results := s.best_results,
    wind_power_variability_predictions := so.df_var_ensemble_melt,
    wind_power_variability_info_contributions :=
      so.previous_day_results_second_stage,
    wind_power_variability_best_results := so.best_results_var }

/-- Lines 417-466 of `ml_engine.py`: in simulation mode assert the usecase (line
419, before any write), build the simulation bundle and persist it, returning
the whole bundle; in normal mode build the melted bundle, persist it (lines
463-464), and only then assert the usecase (line 465), returning that
predictions table of that usecase.  A run whose quantiles never included 0.5 fails
here with a NameError when the bundle references the second-stage tables. -/
def finalize (_ens_params : EnsParams) (simulation : Bool)
    (challenge_usecase : Option String) (end_training_timestamp : Int)
    (iteration : Nat) (s : LoopState) (df_test_targ df_pred_ensemble : DataFrame)
    (prior : Option Saved) : Option Saved × Except String RunReturn :=
  if simulation then
    if challenge_usecase ≠ some "simulation" then (prior, .error msg_sim)
    else
      match s.second with
      | none => (prior, .error msg_second)
      | some so =>
        (some (.simulationResults (build_results_simulation end_training_timestamp
           iteration s so df_test_targ df_pred_ensemble)),
         .ok (.simulationBundle (build_results_simulation end_training_timestamp
           iteration s so df_test_targ df_pred_ensemble)))
  else
    match s.second with
    | none => (prior, .error msg_second)
    | some so =>
      if challenge_usecase = some "wind_power" then
        (some (.normalResults (build_results_normal end_training_timestamp
           iteration s so df_pred_ensemble)),
         .ok (.normalPredictions (build_results_normal end_training_timestamp
           iteration s so df_pred_ensemble).wind_power_predictions))
      else if challenge_usecase = some "wind_power_variability" then
        (some (.normalResults (build_results_normal end_training_timestamp
           iteration s so df_pred_ensemble)),
         .ok (.normalPredictions (build_results_normal end_training_timestamp
           iteration s so df_pred_ensemble).wind_power_variability_predictions))
      else
        (some (.normalResults (build_results_normal end_training_timestamp
           iteration s so df_pred_ensemble)),
         .error msg_usecase)

/-- The full `create_ensemble_forecasts` of `ml_engine.py` lines 19-466,
composed of the staged translations above.  Returns the outcome, the final
state-file content (`prior_state` on every abort except the post-write
usecase assert of line 465), and the event trace. -/
def create_ensemble_forecasts (oracle : ModelOracle) (ens_params : EnsParams)
    (df_buyer df_market : DataFrame) (end_training_timestamp : Int)
    (forecast_range : List Int) (challenge_usecase : Option String)
    (simulation : Bool) (prior_state : Option Saved) :
    Except String RunReturn × Option Saved × List Event :=
  let start_prediction_timestamp := forecast_range.headD 0
  match run_preamble ens_params df_buyer df_market with
  | (tr, .error e) => (.error e, prior_state, tr)
  | (tr, .ok pre) =>
    match assemble_stage ens_params pre df_buyer
        end_training_timestamp start_prediction_timestamp with
    | .error e => (.error e, prior_state, tr)
    | .ok a =>
      let loaded := load_or_initialize_results prior_state
      let s0 : LoopState := ⟨[], loaded.2.1, loaded.2.2, [], none⟩
      match first_stage_loop oracle ens_params pre a loaded.1
          end_training_timestamp start_prediction_timestamp ens_params.quantiles s0 with
      | (tr2, .error e) => (.error e, prior_state, tr ++ tr2)
      | (tr2, .ok s) =>
        let predictions := rescale_clip_loop ens_params a.frames1.buyer_scaler_stats
          ens_params.quantiles s.predictions
        let target_name := "norm_" ++ pre.buyer_resource_name
        let df_test_targ := rescale_targets ens_params a.frames1.buyer_scaler_stats
          a.frames1.df_test_targ target_name "1st"
        let quantile_predictions_dict := collect_quantile_ensemble_predictions
          ens_params.quantiles df_test_targ predictions
        let df_pred_ensemble := create_ensemble_dataframe pre.buyer_resource_name
          ens_params.quantiles quantile_predictions_dict df_test_targ
        let fin := finalize ens_params simulation challenge_usecase
          end_training_timestamp loaded.1 s df_test_targ df_pred_ensemble prior_state
        (fin.2, fin.1, tr ++ tr2)

/-- Whether an `Except` carries a value. -/
def exceptIsOk {α : Type} : Except String α → Bool
  | .ok _ => true
  | .error _ => false

/-- The assembled record of a successful `assemble_stage`, or the default one
on error. -/
def getOkAssembled : Except String Assembled → Assembled
  | .ok a => a
  | .error _ => default

/-- The frame record of a successful `first_stage_frames`, or the default one
on error. -/
def getOkFrames : Except String Frames1 → Frames1
  | .ok f => f
  | .error _ => default

/-- Whether a run outcome is a normal-mode predictions table. -/
def isOkNormal : Except String RunReturn → Bool
  | .ok (.normalPredictions _) => true
  | _ => false

/-- Whether a run outcome is a simulation-mode bundle. -/
def isOkSim : Except String RunReturn → Bool
  | .ok (.simulationBundle _) => true
  | _ => false

/-- The melted table of a normal-mode outcome (empty otherwise). -/
def normalMelt : Except String RunReturn → Melted
  | .ok (.normalPredictions m) => m
  | _ => []

/-- Whether a melted table holds some strictly negative value. -/
def hasNegValue (m : Melted) : Bool :=
  m.any (fun e => match e.2.2 with | some v => decide (v < 0) | none => false)

/-- Whether every present value of a melted table is non-negative. -/
def allNonnegValue (m : Melted) : Bool :=
  m.all (fun e => match e.2.2 with | some v => decide (0 ≤ v) | none => true)

/-- A column of `n` constant cells, for the concrete runs below. -/
def constCol (n : Nat) : List (Option Rat) := List.replicate n (some 1)

/-- Timestamps 0..96: one training row then a 96-step horizon. -/
def idx97 : List Int := (List.range 97).map (fun i => (i : Int))

/-- A market frame with a single q50 forecaster column and no q10/q90
columns. -/
def df_market_demo : DataFrame := ⟨idx97, [("a_q50", constCol 97)]⟩

/-- A buyer frame with a single target column. -/
def df_buyer_demo : DataFrame := ⟨idx97, [("wind", constCol 97)]⟩

/-- The 96-step forecast range 1..96. -/
def range_demo : List Int := (List.range 96).map (fun i => (i : Int) + 1)

/-- A minimal valid configuration: no scaling, no augmentation, a single
quantile level 0.5 (the second-stage trigger). -/
def params_demo : EnsParams :=
  { model_type := "GBR", normalize := false, standardize := false,
    scale_features := false, max_lags := 0, forecasters_diversity := false,
    add_lags := false, augment_with_poly := false,
    augment_with_roll_stats := false, differenciate := false,
    add_quantile_predictions := false, quantiles := [(1 : Rat)/2],
    order_diff := 1, differenciate_var := false, max_lags_var := 0,
    add_lags_var := false, augment_with_poly_var := false }

/-- A concrete external model family whose fitted models predict the constant
-1: its raw outputs rescale to a negative physical value. -/
def oracle_neg : ModelOracle :=
  { fit := fun _x _y => fun xt => xt.map (fun _ => some (-1)),
    updateBest := fun b q i => setAssoc b q i,
    lr_explain := fun _ => ([], [], "") }

/-- The concrete demo run with a chosen usecase and mode, from empty prior
state. -/
def run_demo (challenge_usecase : Option String) (simulation : Bool) :
    Except String RunReturn × Option Saved × List Event :=
  create_ensemble_forecasts oracle_neg params_demo df_buyer_demo df_market_demo
    0 range_demo challenge_usecase simulation none

/-- The preamble record of a successful `run_preamble`, or the default one on
error. -/
def getOkPre : Except String Preamble → Preamble
  | .ok pre => pre
  | .error _ => default

/-- The returned value of a successful run, or an empty normal table on
error. -/
def getOkRun : Except String RunReturn → RunReturn
  | .ok r => r
  | .error _ => .normalPredictions []

/-- The flag check the assert message of `ml_engine.py` line 76 describes
(stated from the words of the spec, for comparison with `run_preamble` above):
`scale_features` must be true whenever `normalize` or `standardize` is. -/
def scale_flag_check_intended (p : EnsParams) : Bool :=
  !((p.normalize || p.standardize) && !p.scale_features)

/-- A configuration the error taxonomy of the spec calls invalid: mutually
exclusive or contradictory flags, or the LR model type without the scaling it
requires — exactly the conditions the configuration checks of the preamble
reject. -/
def invalid_configuration (p : EnsParams) : Bool :=
  (decide (p.model_type = "LR") && !(p.normalize || p.standardize)) ||
  (p.normalize || (p.standardize && !p.scale_features)) ||
  (p.normalize && p.standardize)

/-- Whether a message is one of the three configuration-error
messages. -/
def isConfigErrorMsg (msg : String) : Bool :=
  decide (msg = msg_lr) || decide (msg = msg_scale) || decide (msg = msg_both)

/-- The `normalize = true, standardize = false, scale_features = true`
configuration: the assert message of line 76 says it must pass, the
expression in the code rejects it. -/
def params_c1 : EnsParams :=
  { params_demo with normalize := true, standardize := false, scale_features := true }

/-- A contradictory configuration (`normalize` and `standardize` both
true). -/
def params_c4 : EnsParams :=
  { params_demo with normalize := true, standardize := true, scale_features := true }

/-- The LR model type with neither `normalize` nor `standardize`. -/
def params_c8 : EnsParams := { params_demo with model_type := "LR" }

/-- A market frame without any q50 column. -/
def df_market_noq50 : DataFrame := ⟨idx97, [("a_q10", constCol 97)]⟩

/-- A market frame whose first q50 column is entirely NaN (mean imputation
leaves an all-NaN column untouched), alongside a populated q50 column. -/
def df_market_nan : DataFrame :=
  ⟨idx97, [("a_q50", List.replicate 97 (none : Option Rat)), ("b_q50", constCol 97)]⟩

/-- The preamble record of the demo inputs. -/
def pre_demo : Preamble := getOkPre (run_preamble params_demo df_buyer_demo df_market_demo).2

/-- The assembled record of the demo inputs (cutoff 0, prediction start 1). -/
def assembled_demo : Assembled :=
  getOkAssembled (assemble_stage params_demo pre_demo df_buyer_demo 0 1)

/-- The frame record of the demo inputs. -/
def frames_demo : Frames1 :=
  getOkFrames (first_stage_frames params_demo pre_demo df_buyer_demo 0 1)

/-- The preamble record of the all-NaN-q50-column market frame. -/
def pre_nan : Preamble := getOkPre (preamble_check params_demo df_buyer_demo df_market_nan)

/-- The frame record of the all-NaN-q50-column inputs: its training ensemble
still holds NaN cells when the line-198 assert runs. -/
def frames_nan : Frames1 :=
  getOkFrames (first_stage_frames params_demo pre_nan df_buyer_demo 0 1)

/-- The first-stage trainer result of the demo inputs at quantile 0.5. -/
def first_demo : FirstStageResult :=
  predico_ensemble_predictions_per_quantile oracle_neg params_demo
    assembled_demo.X_train assembled_demo.X_test assembled_demo.y_train
    assembled_demo.frames1.df_train_ensemble [] ((1 : Rat)/2) [] 0
    assembled_demo.X_train_quantile10 assembled_demo.X_test_quantile10
    assembled_demo.df_train_ensemble_quantile10
    assembled_demo.X_train_quantile90 assembled_demo.X_test_quantile90
    assembled_demo.df_train_ensemble_quantile90

/-- The concrete second-stage call on the demo data. -/
def second_demo : List Event × Except String SecondOut :=
  second_stage oracle_neg params_demo assembled_demo.frames1.buyer_scaler_stats
    first_demo assembled_demo.frames1.df_train_ensemble
    assembled_demo.frames1.df_test_ensemble
    assembled_demo.df_test_ensemble_quantile10
    assembled_demo.df_test_ensemble_quantile90
    assembled_demo.y_train [] 0 "wind" 0 1



theorem impute_isEmpty (df : DataFrame) :
    (impute_mean_for_nan df).isEmpty = df.isEmpty := by
  cases df with
  | mk idx cols => cases cols <;> simp [impute_mean_for_nan, DataFrame.isEmpty]

theorem preamble_trace_no_fit (m : DataFrame) :
    (preamble_trace m).all (fun e => !e.isFit) = true := by
  unfold preamble_trace
  split <;> split <;> split <;> simp [Event.isFit]

theorem preamble_trace_extract (m : DataFrame) :
    Event.extractQuantileColumns "q50" ∈ preamble_trace m := by
  unfold preamble_trace
  simp

theorem preamble_trace_impute (m : DataFrame)
    (h : (extract_quantile_columns m "q50").isEmpty = false) :
    Event.imputeMeanForNan "q50" ∈ preamble_trace m := by
  unfold preamble_trace
  simp [h]

theorem preamble_check_q50_iff (p : EnsParams) (b m : DataFrame) :
    preamble_check p b m = .error msg_q50 ↔
      (extract_quantile_columns m "q50").isEmpty = true := by
  unfold preamble_check
  by_cases hq : (extract_quantile_columns m "q50").isEmpty = true
  · simp [hq]
  · simp only [Bool.not_eq_true] at hq
    simp only [hq, Bool.not_false, if_true, impute_isEmpty, Bool.false_eq_true, if_false]
    constructor
    · intro h
      exfalso
      split at h
      · exact absurd (Except.error.inj h) (by decide)
      · split at h
        · exact absurd (Except.error.inj h) (by decide)
        · split at h
          · exact absurd (Except.error.inj h) (by decide)
          · exact Except.noConfusion h
    · intro h
      exact absurd h (by decide)

theorem preamble_check_lr (p : EnsParams) (b m : DataFrame)
    (hlr : p.model_type = "LR") (hn : p.normalize = false)
    (hs : p.standardize = false)
    (hq : (extract_quantile_columns m "q50").isEmpty = false) :
    preamble_check p b m = .error msg_lr := by
  unfold preamble_check
  simp [hq, impute_isEmpty, hlr, hn, hs]

theorem preamble_check_invalid (p : EnsParams) (b m : DataFrame)
    (h1 : invalid_configuration p = true)
    (hq : (extract_quantile_columns m "q50").isEmpty = false) :
    ∃ msg, isConfigErrorMsg msg = true ∧ preamble_check p b m = .error msg := by
  unfold preamble_check
  simp only [hq, Bool.not_false, if_true, impute_isEmpty, Bool.false_eq_true, if_false]
  by_cases c1 : (decide (p.model_type = "LR") && !(p.normalize || p.standardize)) = true
  · exact ⟨msg_lr, by simp [isConfigErrorMsg], by rw [if_pos c1]⟩
  · by_cases c2 : (p.normalize || (p.standardize && !p.scale_features)) = true
    · exact ⟨msg_scale, by simp [isConfigErrorMsg], by rw [if_neg c1, if_pos c2]⟩
    · exfalso
      have hn : p.normalize = false := by
        cases hnn : p.normalize
        · rfl
        · exact absurd (by simp [hnn]) c2
      rw [invalid_configuration] at h1
      simp only [hn, Bool.false_or, Bool.false_and, Bool.and_false, Bool.or_false] at h1 c1 c2
      rcases Bool.or_eq_true_iff.mp h1 with h | h
      · exact c1 (by simpa [hn] using h)
      · exact c2 h


theorem run_of_preamble_error (oracle : ModelOracle) (p : EnsParams)
    (b m : DataFrame) (et : Int) (fr : List Int) (cu : Option String) (sim : Bool)
    (prior : Option Saved) (e : String)
    (h : preamble_check p b m = .error e) :
    create_ensemble_forecasts oracle p b m et fr cu sim prior =
      (.error e, prior, preamble_trace m) := by
  simp only [create_ensemble_forecasts, run_preamble, h]

theorem run_of_assemble_error (oracle : ModelOracle) (p : EnsParams)
    (b m : DataFrame) (et : Int) (fr : List Int) (cu : Option String) (sim : Bool)
    (prior : Option Saved) (pre : Preamble) (e : String)
    (h1 : preamble_check p b m = .ok pre)
    (h2 : assemble_stage p pre b et (fr.headD 0) = .error e) :
    create_ensemble_forecasts oracle p b m et fr cu sim prior =
      (.error e, prior, preamble_trace m) := by
  simp only [create_ensemble_forecasts, run_preamble, h1, h2]

theorem run_of_loop_error (oracle : ModelOracle) (p : EnsParams)
    (b m : DataFrame) (et : Int) (fr : List Int) (cu : Option String) (sim : Bool)
    (prior : Option Saved) (pre : Preamble) (a : Assembled) (tr2 : List Event) (e : String)
    (h1 : preamble_check p b m = .ok pre)
    (h2 : assemble_stage p pre b et (fr.headD 0) = .ok a)
    (h3 : first_stage_loop oracle p pre a (load_or_initialize_results prior).1 et
        (fr.headD 0) p.quantiles
        ⟨[], (load_or_initialize_results prior).2.1,
         (load_or_initialize_results prior).2.2, [], none⟩ = (tr2, .error e)) :
    create_ensemble_forecasts oracle p b m et fr cu sim prior =
      (.error e, prior, preamble_trace m ++ tr2) := by
  simp only [create_ensemble_forecasts, run_preamble, h1, h2, h3]

theorem run_of_loop_ok (oracle : ModelOracle) (p : EnsParams)
    (b m : DataFrame) (et : Int) (fr : List Int) (cu : Option String) (sim : Bool)
    (prior : Option Saved) (pre : Preamble) (a : Assembled) (tr2 : List Event) (s : LoopState)
    (h1 : preamble_check p b m = .ok pre)
    (h2 : assemble_stage p pre b et (fr.headD 0) = .ok a)
    (h3 : first_stage_loop oracle p pre a (load_or_initialize_results prior).1 et
        (fr.headD 0) p.quantiles
        ⟨[], (load_or_initialize_results prior).2.1,
         (load_or_initialize_results prior).2.2, [], none⟩ = (tr2, .ok s)) :
    create_ensemble_forecasts oracle p b m et fr cu sim prior =
      (let predictions := rescale_clip_loop p a.frames1.buyer_scaler_stats
        p.quantiles s.predictions
       let df_test_targ := rescale_targets p a.frames1.buyer_scaler_stats
        a.frames1.df_test_targ ("norm_" ++ pre.buyer_resource_name) "1st"
       let qpd := collect_quantile_ensemble_predictions p.quantiles df_test_targ predictions
       let dpe := create_ensemble_dataframe pre.buyer_resource_name p.quantiles qpd df_test_targ
       let fin := finalize p sim cu et (load_or_initialize_results prior).1 s
        df_test_targ dpe prior
       (fin.2, fin.1, preamble_trace m ++ tr2)) := by
  simp only [create_ensemble_forecasts, run_preamble, h1, h2, h3]

theorem finalize_file_unchanged (p : EnsParams) (sim : Bool) (cu : Option String)
    (et : Int) (it : Nat) (s : LoopState) (dtt dpe : DataFrame) (prior : Option Saved)
    (msg : String)
    (h : (finalize p sim cu et it s dtt dpe prior).2 = .error msg)
    (hmsg : msg ≠ msg_usecase) :
    (finalize p sim cu et it s dtt dpe prior).1 = prior := by
  by_cases hsim : sim = true
  · by_cases hcu : cu = some "simulation" <;> cases hsec : s.second <;>
      simp_all [finalize]
  · by_cases h1 : cu = some "wind_power"
    · cases hsec : s.second <;> simp_all [finalize]
    · by_cases h2 : cu = some "wind_power_variability" <;>
        cases hsec : s.second <;> simp_all [finalize]

/-- C2: corrected — any assertion failure other than the final normal-mode
challenge_usecase check (`ml_engine.py` line 465) aborts the run with the
state file unchanged; that final check alone fires only after the result file
has been written (lines 463-464). -/
theorem C2_no_persist_except_usecase_assert (oracle : ModelOracle) (p : EnsParams)
    (b m : DataFrame) (et : Int) (fr : List Int) (cu : Option String) (sim : Bool)
    (prior : Option Saved) (msg : String)
    (h : (create_ensemble_forecasts oracle p b m et fr cu sim prior).1 = .error msg)
    (hmsg : msg ≠ msg_usecase) :
    (create_ensemble_forecasts oracle p b m et fr cu sim prior).2.1 = prior := by
  cases hpre : preamble_check p b m with
  | error e => rw [run_of_preamble_error oracle p b m et fr cu sim prior e hpre]
  | ok pre =>
    cases hasm : assemble_stage p pre b et (fr.headD 0) with
    | error e => rw [run_of_assemble_error oracle p b m et fr cu sim prior pre e hpre hasm]
    | ok a =>
      rcases hloop : first_stage_loop oracle p pre a (load_or_initialize_results prior).1
          et (fr.headD 0) p.quantiles
          ⟨[], (load_or_initialize_results prior).2.1,
           (load_or_initialize_results prior).2.2, [], none⟩ with ⟨tr2, r⟩
      cases r with
      | error e =>
        rw [run_of_loop_error oracle p b m et fr cu sim prior pre a tr2 e hpre hasm hloop]
      | ok s =>
        rw [run_of_loop_ok oracle p b m et fr cu sim prior pre a tr2 s hpre hasm hloop] at h ⊢
        exact finalize_file_unchanged _ _ _ _ _ _ _ _ _ _ h hmsg

/-- C2 counterexample: in normal mode with an invalid `challenge_usecase`,
the run fails on the line-465 assertion and yet the result file has been
written (prior state was `none`, final state is non-empty). -/
theorem C2_counterexample_usecase_assert_after_write :
    (run_demo (some "bogus") false).1 = .error msg_usecase ∧
    (run_demo (some "bogus") false).2.1.isSome = true :=
  ⟨by with_unfolding_all rfl, by with_unfolding_all rfl⟩

/-- C2 witness: a concrete aborted run (contradictory configuration flags)
leaves the state file unchanged. -/
theorem C2_witness :
    (create_ensemble_forecasts oracle_neg params_c4 df_buyer_demo df_market_demo 0
        range_demo (some "wind_power") false none).2.1 = none :=
  C2_no_persist_except_usecase_assert oracle_neg params_c4 df_buyer_demo df_market_demo
    0 range_demo (some "wind_power") false none msg_scale
    (by with_unfolding_all rfl) (by decide)

/-- C1: the line-76 assertion of the code, read with Python operator precedence,
rejects every configuration with `normalize = true` — including
`scale_features = true`, which its own message (and the spec) say must pass —
so the run aborts with the scale-features configuration error on such input. -/
theorem C1_scale_check_rejects_normalize_with_scaling_enabled :
    scale_flag_check_intended params_c1 = true ∧
    preamble_check params_c1 df_buyer_demo df_market_demo = .error msg_scale ∧
    (create_ensemble_forecasts oracle_neg params_c1 df_buyer_demo df_market_demo 0
        range_demo (some "wind_power") false none).1 = .error msg_scale :=
  ⟨by with_unfolding_all rfl, by with_unfolding_all rfl, by with_unfolding_all rfl⟩

/-- C8: for `model_type = LR` with neither `normalize` nor `standardize`, the
run fails with the LR configuration error (line 64) and no model-fitting
event has happened. -/
theorem C8_lr_requires_scaling_before_any_fit (oracle : ModelOracle) (p : EnsParams)
    (b m : DataFrame) (et : Int) (fr : List Int) (cu : Option String) (sim : Bool)
    (prior : Option Saved)
    (hlr : p.model_type = "LR") (hn : p.normalize = false) (hs : p.standardize = false)
    (hq : (extract_quantile_columns m "q50").isEmpty = false) :
    (create_ensemble_forecasts oracle p b m et fr cu sim prior).1 = .error msg_lr ∧
    ((create_ensemble_forecasts oracle p b m et fr cu sim prior).2.2.all
      (fun e => !e.isFit)) = true := by
  rw [run_of_preamble_error oracle p b m et fr cu sim prior msg_lr
    (preamble_check_lr p b m hlr hn hs hq)]
  exact ⟨rfl, preamble_trace_no_fit m⟩

/-- C8 witness: the concrete LR-without-scaling configuration aborts with the
LR configuration error before any fit. -/
theorem C8_witness :
    (create_ensemble_forecasts oracle_neg params_c8 df_buyer_demo df_market_demo 0
        range_demo (some "wind_power") false none).1 = .error msg_lr ∧
    ((create_ensemble_forecasts oracle_neg params_c8 df_buyer_demo df_market_demo 0
        range_demo (some "wind_power") false none).2.2.all
      (fun e => !e.isFit)) = true :=
  C8_lr_requires_scaling_before_any_fit oracle_neg params_c8 df_buyer_demo
    df_market_demo 0 range_demo (some "wind_power") false none
    rfl rfl rfl (by with_unfolding_all rfl)

/-- C4: corrected — an invalid configuration does fail with a configuration
error, but only after the quantile-column extraction and mean imputation of
the market dataframe have been performed: the configuration checks run after
the data touches of lines 42-54. -/
theorem C4_amended_config_error_after_data_touch (p : EnsParams) (b m : DataFrame)
    (h1 : invalid_configuration p = true)
    (hq : (extract_quantile_columns m "q50").isEmpty = false) :
    ∃ msg, isConfigErrorMsg msg = true ∧
      ∀ (oracle : ModelOracle) (et : Int) (fr : List Int) (cu : Option String)
        (sim : Bool) (prior : Option Saved),
        (create_ensemble_forecasts oracle p b m et fr cu sim prior).1 = .error msg ∧
        Event.extractQuantileColumns "q50"
          ∈ (create_ensemble_forecasts oracle p b m et fr cu sim prior).2.2 ∧
        Event.imputeMeanForNan "q50"
          ∈ (create_ensemble_forecasts oracle p b m et fr cu sim prior).2.2 := by
  obtain ⟨msg, hcfg, herr⟩ := preamble_check_invalid p b m h1 hq
  refine ⟨msg, hcfg, fun oracle et fr cu sim prior => ?_⟩
  rw [run_of_preamble_error oracle p b m et fr cu sim prior msg herr]
  exact ⟨rfl, preamble_trace_extract m, preamble_trace_impute m hq⟩

/-- C4 counterexample: with both `normalize` and `standardize` set (an
invalid configuration) the run does abort with a configuration error, but its
trace already holds the q50 extraction and imputation events: data was
touched before the configuration check. -/
theorem C4_counterexample_data_touched_before_config_check :
    (create_ensemble_forecasts oracle_neg params_c4 df_buyer_demo df_market_demo 0
        range_demo (some "wind_power") false none).1 = .error msg_scale ∧
    Event.extractQuantileColumns "q50"
      ∈ (create_ensemble_forecasts oracle_neg params_c4 df_buyer_demo df_market_demo 0
          range_demo (some "wind_power") false none).2.2 ∧
    Event.imputeMeanForNan "q50"
      ∈ (create_ensemble_forecasts oracle_neg params_c4 df_buyer_demo df_market_demo 0
          range_demo (some "wind_power") false none).2.2 :=
  ⟨by with_unfolding_all rfl,
   of_decide_eq_true (by with_unfolding_all rfl),
   of_decide_eq_true (by with_unfolding_all rfl)⟩

/-- C4 witness: the amended statement instantiated at the concrete
contradictory configuration. -/
theorem C4_witness :
    ∃ msg, isConfigErrorMsg msg = true ∧
      (create_ensemble_forecasts oracle_neg params_c4 df_buyer_demo df_market_demo 0
        range_demo (some "wind_power") false none).1 = .error msg := by
  obtain ⟨msg, hcfg, hall⟩ :=
    C4_amended_config_error_after_data_touch params_c4 df_buyer_demo df_market_demo
      (by with_unfolding_all rfl) (by with_unfolding_all rfl)
  exact ⟨msg, hcfg, (hall oracle_neg 0 range_demo (some "wind_power") false none).1⟩

theorem applyForward_isEmpty (p : EnsParams) (st : ScalerStats) (df : DataFrame) :
    (applyForward p st df).isEmpty = df.isEmpty := by
  cases df with
  | mk idx cols => cases cols <;> simp [applyForward, DataFrame.isEmpty]

theorem assemble_ok_no_nan (p : EnsParams) (pre : Preamble) (b : DataFrame)
    (et sp : Int) (a : Assembled) (h : assemble_stage p pre b et sp = .ok a) :
    a.frames1.df_train_ensemble.countNaN = 0 := by
  unfold assemble_stage at h
  split at h
  · exact Except.noConfusion h
  · rename_i f hf
    by_cases h1 : f.df_test_ensemble.index.length ≠ 96
    · rw [if_pos h1] at h; exact Except.noConfusion h
    · rw [if_neg h1] at h
      by_cases h2 : f.df_test_targ.index ≠ f.df_test_ensemble.index
      · rw [if_pos h2] at h; exact Except.noConfusion h
      · rw [if_neg h2] at h
        by_cases h3 : f.df_train_ensemble.countNaN ≠ 0
        · rw [if_pos h3] at h; exact Except.noConfusion h
        · rw [if_neg h3] at h
          rw [← Except.ok.inj h]
          simpa using h3

theorem assemble_of_frames_ok (p : EnsParams) (pre : Preamble) (b : DataFrame)
    (et sp : Int) (f : Frames1)
    (hf : first_stage_frames p pre b et sp = .ok f)
    (h1 : f.df_test_ensemble.index.length = 96)
    (h2 : f.df_test_targ.index = f.df_test_ensemble.index)
    (h3 : f.df_train_ensemble.countNaN = 0) :
    ∃ a, assemble_stage p pre b et sp = .ok a ∧ a.frames1 = f := by
  unfold assemble_stage
  rw [hf]
  dsimp only
  rw [if_neg (by simp [h1]), if_neg (by simp [h2]), if_neg (by simp [h3])]
  exact ⟨_, rfl, rfl⟩

theorem frames_ok_inv (p : EnsParams) (pre : Preamble) (b : DataFrame) (et sp : Int)
    (f : Frames1) (h : first_stage_frames p pre b et sp = .ok f) :
    f.df_ensemble_normalized_quantile10 = normalized_quantile10 p pre b et ∧
    f.df_ensemble_normalized_quantile90 = normalized_quantile90 p pre b et ∧
    f.df_ensemble_normalized_lag_quantile10 = lag_quantile10 p pre b et sp ∧
    f.df_ensemble_normalized_lag_quantile90 = lag_quantile90 p pre b et sp := by
  unfold first_stage_frames at h
  split at h
  · exact Except.noConfusion h
  · obtain rfl := (Except.ok.inj h).symm
    exact ⟨rfl, rfl, rfl, rfl⟩

theorem assemble_ok_inv (p : EnsParams) (pre : Preamble) (b : DataFrame) (et sp : Int)
    (a : Assembled) (h : assemble_stage p pre b et sp = .ok a) :
    ∃ f, first_stage_frames p pre b et sp = .ok f ∧ a.frames1 = f ∧
      a.df_train_ensemble_quantile10 = (quantile_pair10 p f et sp).1 ∧
      a.df_test_ensemble_quantile10 = (quantile_pair10 p f et sp).2 ∧
      a.df_train_ensemble_quantile90 = (quantile_pair90 p f et sp).1 ∧
      a.df_test_ensemble_quantile90 = (quantile_pair90 p f et sp).2 ∧
      a.X_train_quantile10 = (get_numpy_Xy_train_test_quantile p
        (quantile_pair10 p f et sp).1 (quantile_pair10 p f et sp).2
        (quantile_pair90 p f et sp).1 (quantile_pair90 p f et sp).2).1 ∧
      a.X_test_quantile10 = (get_numpy_Xy_train_test_quantile p
        (quantile_pair10 p f et sp).1 (quantile_pair10 p f et sp).2
        (quantile_pair90 p f et sp).1 (quantile_pair90 p f et sp).2).2.1 ∧
      a.X_train_quantile90 = (get_numpy_Xy_train_test_quantile p
        (quantile_pair10 p f et sp).1 (quantile_pair10 p f et sp).2
        (quantile_pair90 p f et sp).1 (quantile_pair90 p f et sp).2).2.2.1 ∧
      a.X_test_quantile90 = (get_numpy_Xy_train_test_quantile p
        (quantile_pair10 p f et sp).1 (quantile_pair10 p f et sp).2
        (quantile_pair90 p f et sp).1 (quantile_pair90 p f et sp).2).2.2.2 := by
  unfold assemble_stage at h
  split at h
  · exact Except.noConfusion h
  · rename_i f hf
    refine ⟨f, hf, ?_⟩
    by_cases h1 : f.df_test_ensemble.index.length ≠ 96
    · rw [if_pos h1] at h; exact Except.noConfusion h
    · rw [if_neg h1] at h
      by_cases h2 : f.df_test_targ.index ≠ f.df_test_ensemble.index
      · rw [if_pos h2] at h; exact Except.noConfusion h
      · rw [if_neg h2] at h
        by_cases h3 : f.df_train_ensemble.countNaN ≠ 0
        · rw [if_pos h3] at h; exact Except.noConfusion h
        · rw [if_neg h3] at h
          obtain rfl := (Except.ok.inj h).symm
          exact ⟨rfl, rfl, rfl, rfl, rfl, rfl, rfl, rfl, rfl⟩

theorem normalized_quantile10_isEmpty (p : EnsParams) (pre : Preamble)
    (b : DataFrame) (et : Int) :
    (normalized_quantile10 p pre b et).isEmpty = pre.df_ensemble_quantile10.isEmpty := by
  simp [normalized_quantile10, scale_forecasters_dataframe, applyForward_isEmpty]

theorem normalized_quantile90_isEmpty (p : EnsParams) (pre : Preamble)
    (b : DataFrame) (et : Int) :
    (normalized_quantile90 p pre b et).isEmpty = pre.df_ensemble_quantile90.isEmpty := by
  simp [normalized_quantile90, scale_forecasters_dataframe, applyForward_isEmpty]

theorem lag_quantile10_of_empty (p : EnsParams) (pre : Preamble) (b : DataFrame)
    (et sp : Int) (h : pre.df_ensemble_quantile10.isEmpty = true) :
    lag_quantile10 p pre b et sp = DataFrame.empty := by
  simp [lag_quantile10, normalized_quantile10_isEmpty, h, ite_self]

theorem lag_quantile90_of_empty (p : EnsParams) (pre : Preamble) (b : DataFrame)
    (et sp : Int) (h : pre.df_ensemble_quantile90.isEmpty = true) :
    lag_quantile90 p pre b et sp = DataFrame.empty := by
  simp [lag_quantile90, normalized_quantile90_isEmpty, h, ite_self]

theorem lag_quantile10_of_flag (p : EnsParams) (pre : Preamble) (b : DataFrame)
    (et sp : Int) (h : p.add_quantile_predictions = false) :
    lag_quantile10 p pre b et sp = DataFrame.empty := by
  simp [lag_quantile10, h]

theorem lag_quantile90_of_flag (p : EnsParams) (pre : Preamble) (b : DataFrame)
    (et sp : Int) (h : p.add_quantile_predictions = false) :
    lag_quantile90 p pre b et sp = DataFrame.empty := by
  simp [lag_quantile90, h]

theorem quantile_pair10_of_empty (p : EnsParams) (f : Frames1) (et sp : Int)
    (h : f.df_ensemble_normalized_quantile10.isEmpty = true) :
    quantile_pair10 p f et sp = (DataFrame.empty, DataFrame.empty) := by
  simp [quantile_pair10, h, ite_self]

theorem quantile_pair90_of_empty (p : EnsParams) (f : Frames1) (et sp : Int)
    (h : f.df_ensemble_normalized_quantile90.isEmpty = true) :
    quantile_pair90 p f et sp = (DataFrame.empty, DataFrame.empty) := by
  simp [quantile_pair90, h, ite_self]

theorem quantile_pair10_of_flag (p : EnsParams) (f : Frames1) (et sp : Int)
    (h : p.add_quantile_predictions = false) :
    quantile_pair10 p f et sp = (DataFrame.empty, DataFrame.empty) := by
  simp [quantile_pair10, h]

theorem quantile_pair90_of_flag (p : EnsParams) (f : Frames1) (et sp : Int)
    (h : p.add_quantile_predictions = false) :
    quantile_pair90 p f et sp = (DataFrame.empty, DataFrame.empty) := by
  simp [quantile_pair90, h]

theorem matrixOf_empty : matrixOf DataFrame.empty = [] := by
  simp [matrixOf, rowsOf, DataFrame.empty]

/-- C5: both test partitions are validated to have exactly 96 rows.  First
stage: a successful assembly (after the line-163 assert) implies the test
ensemble frame has 96 rows, and any other length makes `assemble_stage` fail
with the 96-row message.  Second stage: a successful `second_stage` (after
the line-302 assert) implies the 2-stage test frame has 96 rows, and any
other length makes it fail with the same message. -/
theorem C5_every_test_partition_has_96_rows :
    (∀ (p : EnsParams) (pre : Preamble) (b : DataFrame) (et sp : Int) (f : Frames1),
      first_stage_frames p pre b et sp = .ok f →
        (∀ a, assemble_stage p pre b et sp = .ok a →
          f.df_test_ensemble.index.length = 96) ∧
        (f.df_test_ensemble.index.length ≠ 96 →
          assemble_stage p pre b et sp = .error msg_len))
    ∧
    (∀ (oracle : ModelOracle) (p : EnsParams) (st : ScalerStats)
       (first : FirstStageResult) (dtr dte d10 d90 : DataFrame)
       (ytr : List (Option Rat)) (bv : BestResults) (it : Nat) (name : String)
       (et sp : Int),
      (exceptIsOk (second_stage oracle p st first dtr dte d10 d90 ytr bv it
          name et sp).2 = true →
        (second_stage_frames p dtr dte ytr
          (prepare_pre_test_data p (1/2 : Rat) dte d10 d90).2
          (first.fitted_model first.X_train_augmented)
          (first.fitted_model (prepare_pre_test_data p (1/2 : Rat) dte d10 d90).1)
          et sp).2.index.length = 96) ∧
      ((second_stage_frames p dtr dte ytr
          (prepare_pre_test_data p (1/2 : Rat) dte d10 d90).2
          (first.fitted_model first.X_train_augmented)
          (first.fitted_model (prepare_pre_test_data p (1/2 : Rat) dte d10 d90).1)
          et sp).2.index.length ≠ 96 →
        (second_stage oracle p st first dtr dte d10 d90 ytr bv it
          name et sp).2 = .error msg_len)) := by
  constructor
  · intro p pre b et sp f hf
    by_cases hlen : f.df_test_ensemble.index.length = 96
    · exact ⟨fun a _ => hlen, fun hne => absurd hlen hne⟩
    · constructor
      · intro a ha
        unfold assemble_stage at ha
        rw [hf] at ha
        dsimp only at ha
        rw [if_pos hlen] at ha
        exact Except.noConfusion ha
      · intro _
        unfold assemble_stage
        rw [hf]
        dsimp only
        rw [if_pos hlen]
  · intro oracle p st first dtr dte d10 d90 ytr bv it name et sp
    by_cases hlen : (second_stage_frames p dtr dte ytr
        (prepare_pre_test_data p (1/2 : Rat) dte d10 d90).2
        (first.fitted_model first.X_train_augmented)
        (first.fitted_model (prepare_pre_test_data p (1/2 : Rat) dte d10 d90).1)
        et sp).2.index.length = 96
    · exact ⟨fun _ => hlen, fun hne => absurd hlen hne⟩
    · constructor
      · intro hok
        exfalso
        unfold second_stage at hok
        rw [if_pos hlen] at hok
        simp [exceptIsOk] at hok
      · intro _
        unfold second_stage
        rw [if_pos hlen]

/-- C5 witness: on the concrete demo inputs the first-stage test frame has 96
rows, and the concrete second-stage call yields a 96-row 2-stage test
frame. -/
theorem C5_witness :
    frames_demo.df_test_ensemble.index.length = 96 ∧
    (second_stage_frames params_demo assembled_demo.frames1.df_train_ensemble
      assembled_demo.frames1.df_test_ensemble assembled_demo.y_train
      (prepare_pre_test_data params_demo (1/2 : Rat)
        assembled_demo.frames1.df_test_ensemble
        assembled_demo.df_test_ensemble_quantile10
        assembled_demo.df_test_ensemble_quantile90).2
      (first_demo.fitted_model first_demo.X_train_augmented)
      (first_demo.fitted_model (prepare_pre_test_data params_demo (1/2 : Rat)
        assembled_demo.frames1.df_test_ensemble
        assembled_demo.df_test_ensemble_quantile10
        assembled_demo.df_test_ensemble_quantile90).1)
      0 1).2.index.length = 96 := by
  constructor
  · exact ((C5_every_test_partition_has_96_rows.1 params_demo pre_demo df_buyer_demo
      0 1 frames_demo (by with_unfolding_all rfl)).1 assembled_demo
      (by with_unfolding_all rfl))
  · exact ((C5_every_test_partition_has_96_rows.2 oracle_neg params_demo
      assembled_demo.frames1.buyer_scaler_stats first_demo
      assembled_demo.frames1.df_train_ensemble assembled_demo.frames1.df_test_ensemble
      assembled_demo.df_test_ensemble_quantile10 assembled_demo.df_test_ensemble_quantile90
      assembled_demo.y_train [] 0 "wind" 0 1).1 (by with_unfolding_all rfl))

/-- C9: the assembled first-stage training frame holds zero NaN cells
whenever assembly succeeds (the line-198 assert); a NaN-carrying training
frame that reaches that assert aborts the run with it; and any run whose
trace shows a first-stage fit had passed a NaN-free training frame. -/
theorem C9_training_frame_nan_free_at_fit :
    (∀ (p : EnsParams) (pre : Preamble) (b : DataFrame) (et sp : Int) (a : Assembled),
      assemble_stage p pre b et sp = .ok a →
        a.frames1.df_train_ensemble.countNaN = 0)
    ∧ (∀ (p : EnsParams) (pre : Preamble) (b : DataFrame) (et sp : Int) (f : Frames1),
        first_stage_frames p pre b et sp = .ok f →
        f.df_test_ensemble.index.length = 96 →
        f.df_test_targ.index = f.df_test_ensemble.index →
        f.df_train_ensemble.countNaN ≠ 0 →
        assemble_stage p pre b et sp = .error msg_nan)
    ∧ (∀ (oracle : ModelOracle) (p : EnsParams) (b m : DataFrame) (et : Int)
         (fr : List Int) (cu : Option String) (sim : Bool) (prior : Option Saved)
         (q : Rat),
        Event.fitFirstStage q ∈
          (create_ensemble_forecasts oracle p b m et fr cu sim prior).2.2 →
        ∃ pre a, preamble_check p b m = .ok pre ∧
          assemble_stage p pre b et (fr.headD 0) = .ok a ∧
          a.frames1.df_train_ensemble.countNaN = 0) := by
  refine ⟨assemble_ok_no_nan, ?_, ?_⟩
  · intro p pre b et sp f hf h96 hidx hnan
    unfold assemble_stage
    rw [hf]
    dsimp only
    rw [if_neg (by simp [h96]), if_neg (by simp [hidx]), if_pos hnan]
  · intro oracle p b m et fr cu sim prior q hmem
    cases hpre : preamble_check p b m with
    | error e =>
      rw [run_of_preamble_error oracle p b m et fr cu sim prior e hpre] at hmem
      exact absurd (List.all_eq_true.mp (preamble_trace_no_fit m) _ hmem)
        (by simp [Event.isFit])
    | ok pre =>
      cases hasm : assemble_stage p pre b et (fr.headD 0) with
      | error e =>
        rw [run_of_assemble_error oracle p b m et fr cu sim prior pre e hpre hasm] at hmem
        exact absurd (List.all_eq_true.mp (preamble_trace_no_fit m) _ hmem)
          (by simp [Event.isFit])
      | ok a =>
        exact ⟨pre, a, rfl, hasm, assemble_ok_no_nan p pre b et (fr.headD 0) a hasm⟩

/-- C9 witness: the demo assembly yields a NaN-free training frame; the
all-NaN-q50-column inputs reach the assert with NaNs and abort with it; and
the first-stage fit event of the demo run certifies a NaN-free training frame. -/
theorem C9_witness :
    assembled_demo.frames1.df_train_ensemble.countNaN = 0 ∧
    assemble_stage params_demo pre_nan df_buyer_demo 0 1 = .error msg_nan := by
  constructor
  · exact C9_training_frame_nan_free_at_fit.1 params_demo pre_demo df_buyer_demo 0 1
      assembled_demo (by with_unfolding_all rfl)
  · exact C9_training_frame_nan_free_at_fit.2.1 params_demo pre_nan df_buyer_demo 0 1
      frames_nan (by with_unfolding_all rfl) (by with_unfolding_all rfl)
      (by with_unfolding_all rfl) (of_decide_eq_true (by with_unfolding_all rfl))

/-- C10: with `add_quantile_predictions` off, the q10/q90 augmented frames
(lines 139-140), the q10/q90 train/test frames (lines 179-180) and the
derived q10/q90 matrices handed to the per-quantile trainer are all empty,
regardless of the market frame content. -/
theorem C10_quantile_frames_empty_without_flag (p : EnsParams) (pre : Preamble)
    (b : DataFrame) (et sp : Int) (hflag : p.add_quantile_predictions = false) :
    (∀ f, first_stage_frames p pre b et sp = .ok f →
      f.df_ensemble_normalized_lag_quantile10 = DataFrame.empty ∧
      f.df_ensemble_normalized_lag_quantile90 = DataFrame.empty) ∧
    (∀ a, assemble_stage p pre b et sp = .ok a →
      a.df_train_ensemble_quantile10 = DataFrame.empty ∧
      a.df_test_ensemble_quantile10 = DataFrame.empty ∧
      a.df_train_ensemble_quantile90 = DataFrame.empty ∧
      a.df_test_ensemble_quantile90 = DataFrame.empty ∧
      a.X_train_quantile10 = [] ∧ a.X_test_quantile10 = [] ∧
      a.X_train_quantile90 = [] ∧ a.X_test_quantile90 = []) := by
  constructor
  · intro f hf
    obtain ⟨-, -, h10, h90⟩ := frames_ok_inv p pre b et sp f hf
    exact ⟨h10.trans (lag_quantile10_of_flag p pre b et sp hflag),
           h90.trans (lag_quantile90_of_flag p pre b et sp hflag)⟩
  · intro a ha
    obtain ⟨f, hf, -, e1, e2, e3, e4, x1, x2, x3, x4⟩ := assemble_ok_inv p pre b et sp a ha
    rw [e1, e2, e3, e4, x1, x2, x3, x4, quantile_pair10_of_flag p f et sp hflag,
      quantile_pair90_of_flag p f et sp hflag]
    simp [get_numpy_Xy_train_test_quantile, matrixOf_empty]

/-- C10 witness: on the concrete demo inputs (flag off), the quantile frames
and matrices handed to the trainer are all empty. -/
theorem C10_witness :
    frames_demo.df_ensemble_normalized_lag_quantile10 = DataFrame.empty ∧
    assembled_demo.df_train_ensemble_quantile10 = DataFrame.empty ∧
    assembled_demo.df_test_ensemble_quantile90 = DataFrame.empty ∧
    assembled_demo.X_train_quantile10 = [] := by
  have h := C10_quantile_frames_empty_without_flag params_demo pre_demo df_buyer_demo
    0 1 rfl
  have h1 := h.1 frames_demo (by with_unfolding_all rfl)
  have h2 := h.2 assembled_demo (by with_unfolding_all rfl)
  exact ⟨h1.1, h2.1, h2.2.2.2.1, h2.2.2.2.2.1⟩

/-- C6: the preamble raises the missing-q50 error exactly when the q50
extraction is empty; an empty q10 (resp. q90) extraction degrades every
downstream q10 (resp. q90) frame to an empty frame; and a run on a market
frame without any q10/q90 columns still completes. -/
theorem C6_q50_mandatory_q10_q90_optional :
    (∀ (p : EnsParams) (b m : DataFrame),
      preamble_check p b m = .error msg_q50 ↔
        (extract_quantile_columns m "q50").isEmpty = true)
    ∧ (∀ (p : EnsParams) (pre : Preamble) (b : DataFrame) (et sp : Int),
        pre.df_ensemble_quantile10.isEmpty = true →
        ∀ f, first_stage_frames p pre b et sp = .ok f →
          f.df_ensemble_normalized_lag_quantile10 = DataFrame.empty ∧
          ∀ a, assemble_stage p pre b et sp = .ok a →
            a.df_train_ensemble_quantile10 = DataFrame.empty ∧
            a.df_test_ensemble_quantile10 = DataFrame.empty)
    ∧ (∀ (p : EnsParams) (pre : Preamble) (b : DataFrame) (et sp : Int),
        pre.df_ensemble_quantile90.isEmpty = true →
        ∀ f, first_stage_frames p pre b et sp = .ok f →
          f.df_ensemble_normalized_lag_quantile90 = DataFrame.empty ∧
          ∀ a, assemble_stage p pre b et sp = .ok a →
            a.df_train_ensemble_quantile90 = DataFrame.empty ∧
            a.df_test_ensemble_quantile90 = DataFrame.empty)
    ∧ isOkNormal (run_demo (some "wind_power") false).1 = true := by
  refine ⟨preamble_check_q50_iff, ?_, ?_, by with_unfolding_all rfl⟩
  · intro p pre b et sp hq10 f hf
    obtain ⟨n10, -, h10, -⟩ := frames_ok_inv p pre b et sp f hf
    constructor
    · exact h10.trans (lag_quantile10_of_empty p pre b et sp hq10)
    · intro a ha
      obtain ⟨f2, hf2, -, e1, e2, -⟩ := assemble_ok_inv p pre b et sp a ha
      obtain ⟨n10b, -⟩ := frames_ok_inv p pre b et sp f2 hf2
      have hemp : f2.df_ensemble_normalized_quantile10.isEmpty = true := by
        rw [n10b, normalized_quantile10_isEmpty, hq10]
      rw [e1, e2, quantile_pair10_of_empty p f2 et sp hemp]
      exact ⟨rfl, rfl⟩
  · intro p pre b et sp hq90 f hf
    obtain ⟨-, n90, -, h90⟩ := frames_ok_inv p pre b et sp f hf
    constructor
    · exact h90.trans (lag_quantile90_of_empty p pre b et sp hq90)
    · intro a ha
      obtain ⟨f2, hf2, -, -, -, e3, e4, -⟩ := assemble_ok_inv p pre b et sp a ha
      obtain ⟨-, n90b, -⟩ := frames_ok_inv p pre b et sp f2 hf2
      have hemp : f2.df_ensemble_normalized_quantile90.isEmpty = true := by
        rw [n90b, normalized_quantile90_isEmpty, hq90]
      rw [e3, e4, quantile_pair90_of_empty p f2 et sp hemp]
      exact ⟨rfl, rfl⟩

/-- C6 witness: a market frame without q50 columns raises the missing-q50
error; the demo inputs (no q10 columns at all) degrade the q10 path to empty
frames while the run completes. -/
theorem C6_witness :
    preamble_check params_demo df_buyer_demo df_market_noq50 = .error msg_q50 ∧
    frames_demo.df_ensemble_normalized_lag_quantile10 = DataFrame.empty := by
  constructor
  · exact (C6_q50_mandatory_q10_q90_optional.1 params_demo df_buyer_demo
      df_market_noq50).mpr (by with_unfolding_all rfl)
  · exact ((C6_q50_mandatory_q10_q90_optional.2.1 params_demo pre_demo df_buyer_demo
      0 1 (by with_unfolding_all rfl)) frames_demo (by with_unfolding_all rfl)).1

theorem lookupD_updatePred_ne (d : PredDict) (q q2 : Rat)
    (f : List (Option Rat) → List (Option Rat)) (h : q2 ≠ q) :
    lookupD (updatePred d q f) q2 = lookupD d q2 := by
  induction d with
  | nil => rfl
  | cons kv rest ih =>
    simp only [updatePred, List.map_cons] at *
    by_cases hk : kv.1 = q
    · rw [if_pos hk]
      show lookupD ((kv.1, f kv.2) :: List.map _ rest) q2 = _
      rw [lookupD, lookupD]
      rw [if_neg (fun he => h (he.symm.trans hk)), if_neg (fun he => h (he.symm.trans hk))]
      exact ih
    · rw [if_neg hk]
      rw [lookupD, lookupD]
      by_cases hk2 : kv.1 = q2
      · rw [if_pos hk2, if_pos hk2]
      · rw [if_neg hk2, if_neg hk2]
        exact ih

theorem lookupD_clip_nonneg (d : PredDict) (q : Rat) (v : Rat)
    (h : some v ∈ lookupD (set_non_negative_predictions d q) q) : 0 ≤ v := by
  induction d with
  | nil => simp [set_non_negative_predictions, updatePred, lookupD] at h
  | cons kv rest ih =>
    simp only [set_non_negative_predictions, updatePred, List.map_cons] at h ih
    by_cases hk : kv.1 = q
    · rw [if_pos hk] at h
      rw [show lookupD ((kv.1, kv.2.map (Option.map (fun x => max x 0))) :: _) q =
          if kv.1 = q then kv.2.map (Option.map (fun x => max x 0))
          else lookupD (List.map _ rest) q from rfl, if_pos hk] at h
      obtain ⟨x, _, he⟩ := List.mem_map.mp h
      cases x with
      | none => simp at he
      | some w =>
        rw [show Option.map (fun x => max x 0) (some w) = some (max w 0) from rfl] at he
        rw [← Option.some.inj he]
        exact le_max_right w 0
    · rw [if_neg hk] at h
      rw [show lookupD (kv :: List.map _ rest) q =
          if kv.1 = q then kv.2 else lookupD (List.map _ rest) q from rfl,
        if_neg hk] at h
      exact ih h

theorem rescale_clip_loop_not_mem (p : EnsParams) (st : ScalerStats)
    (qs : List Rat) :
    ∀ (d : PredDict) (q : Rat), q ∉ qs →
      lookupD (rescale_clip_loop p st qs d) q = lookupD d q := by
  induction qs with
  | nil =>
    intro d q _
    rfl
  | cons q0 rest ih =>
    intro d q h
    rw [rescale_clip_loop]
    rw [ih _ q (fun hm => h (List.mem_cons_of_mem _ hm))]
    have hne : q ≠ q0 := fun he => h (he ▸ List.mem_cons_self _ _)
    rw [set_non_negative_predictions, lookupD_updatePred_ne _ _ _ _ hne,
      rescale_predictions, lookupD_updatePred_ne _ _ _ _ hne]

theorem rescale_clip_loop_nonneg (p : EnsParams) (st : ScalerStats)
    (qs : List Rat) :
    ∀ (d : PredDict) (q : Rat), q ∈ qs → ∀ v : Rat,
      some v ∈ lookupD (rescale_clip_loop p st qs d) q → 0 ≤ v := by
  induction qs with
  | nil =>
    intro d q hq
    cases hq
  | cons q0 rest ih =>
    intro d q hq v hv
    rw [rescale_clip_loop] at hv
    by_cases hmem : q ∈ rest
    · exact ih _ q hmem v hv
    · have hq0 : q = q0 := by
        rcases List.mem_cons.mp hq with h | h
        · exact h
        · exact absurd h hmem
      subst hq0
      rw [rescale_clip_loop_not_mem p st rest _ q hmem] at hv
      exact lookupD_clip_nonneg _ q v hv

theorem lookupD_collect (qs : List Rat) (dtt : DataFrame) (d : PredDict) (q : Rat)
    (hq : q ∈ qs) :
    lookupD (collect_quantile_ensemble_predictions qs dtt d) q = lookupD d q := by
  induction qs with
  | nil => cases hq
  | cons q0 rest ih =>
    simp only [collect_quantile_ensemble_predictions, List.map_cons] at *
    rw [show lookupD ((q0, lookupD d q0) :: List.map _ rest) q =
        if q0 = q then lookupD d q0 else lookupD (List.map _ rest) q from rfl]
    by_cases h0 : q0 = q
    · rw [if_pos h0, h0]
    · rw [if_neg h0]
      exact ih (by
        rcases List.mem_cons.mp hq with h | h
        · exact absurd h.symm h0
        · exact h)

theorem melt_create_nonneg (p : EnsParams) (st : ScalerStats) (name : String)
    (qs : List Rat) (dtt : DataFrame) (d : PredDict) :
    allNonnegValue (melt_dataframe (create_ensemble_dataframe name qs
      (collect_quantile_ensemble_predictions qs dtt (rescale_clip_loop p st qs d))
      dtt)) = true := by
  rw [allNonnegValue, List.all_eq_true]
  intro e he
  unfold melt_dataframe at he
  obtain ⟨l, hl, hel⟩ := List.mem_flatten.mp he
  obtain ⟨c, hc, rfl⟩ := List.mem_map.mp hl
  obtain ⟨pr, hpr, rfl⟩ := List.mem_map.mp hel
  unfold create_ensemble_dataframe at hc
  obtain ⟨q, hq, rfl⟩ := List.mem_map.mp hc
  have hv2 : pr.2 ∈ lookupD (collect_quantile_ensemble_predictions qs dtt
      (rescale_clip_loop p st qs d)) q := by
    have := List.of_mem_zip (show (pr.1, pr.2) ∈ _ from hpr)
    exact this.2
  rw [lookupD_collect qs dtt _ q hq] at hv2
  cases hval : pr.2 with
  | none => simp
  | some v =>
    rw [hval] at hv2
    simp only
    exact decide_eq_true (rescale_clip_loop_nonneg p st qs d q hq v hv2)

/-- C3: corrected — after rescaling, the first-stage wind-power predictions
are clipped to the non-negative domain, so the normal-mode wind-power output
holds no negative value; the variability predictions are rescaled without
clipping and may stay negative. -/
theorem C3_amended_only_wind_power_clipped (oracle : ModelOracle) (p : EnsParams)
    (b m : DataFrame) (et : Int) (fr : List Int) (prior : Option Saved) (mel : Melted)
    (h : (create_ensemble_forecasts oracle p b m et fr (some "wind_power") false
      prior).1 = .ok (.normalPredictions mel)) :
    allNonnegValue mel = true := by
  cases hpre : preamble_check p b m with
  | error e =>
    rw [run_of_preamble_error oracle p b m et fr (some "wind_power") false prior e hpre] at h
    exact Except.noConfusion h
  | ok pre =>
    cases hasm : assemble_stage p pre b et (fr.headD 0) with
    | error e =>
      rw [run_of_assemble_error oracle p b m et fr (some "wind_power") false prior
        pre e hpre hasm] at h
      exact Except.noConfusion h
    | ok a =>
      rcases hloop : first_stage_loop oracle p pre a (load_or_initialize_results prior).1
          et (fr.headD 0) p.quantiles
          ⟨[], (load_or_initialize_results prior).2.1,
           (load_or_initialize_results prior).2.2, [], none⟩ with ⟨tr2, r⟩
      cases r with
      | error e =>
        rw [run_of_loop_error oracle p b m et fr (some "wind_power") false prior
          pre a tr2 e hpre hasm hloop] at h
        exact Except.noConfusion h
      | ok s =>
        rw [run_of_loop_ok oracle p b m et fr (some "wind_power") false prior
          pre a tr2 s hpre hasm hloop] at h
        cases hsec : s.second with
        | none => simp [finalize, hsec] at h
        | some so =>
          simp only [finalize, build_results_normal, hsec, Bool.false_eq_true,
            if_false, reduceIte] at h
          rw [← RunReturn.normalPredictions.inj (Except.ok.inj h)]
          exact melt_create_nonneg p a.frames1.buyer_scaler_stats
            pre.buyer_resource_name p.quantiles _ s.predictions

/-- C3 counterexample: a completed concrete run returning the wind-power
variability table carries a negative predicted value: the second-stage
pipeline rescales (lines 348-351) but never clips. -/
theorem C3_counterexample_variability_not_clipped :
    isOkNormal (run_demo (some "wind_power_variability") false).1 = true ∧
    hasNegValue (normalMelt (run_demo (some "wind_power_variability") false).1) = true :=
  ⟨by with_unfolding_all rfl, by with_unfolding_all rfl⟩

/-- C3 witness: on the concrete demo run the wind-power output is entirely
non-negative even though the raw model output was negative everywhere. -/
theorem C3_witness :
    allNonnegValue (normalMelt (run_demo (some "wind_power") false).1) = true :=
  C3_amended_only_wind_power_clipped oracle_neg params_demo df_buyer_demo df_market_demo
    0 range_demo none (normalMelt (run_demo (some "wind_power") false).1)
    (by with_unfolding_all rfl)

theorem finalize_ok_shape (p : EnsParams) (sim : Bool) (cu : Option String)
    (et : Int) (it : Nat) (s : LoopState) (dtt dpe : DataFrame) (prior : Option Saved)
    (r : RunReturn) (h : (finalize p sim cu et it s dtt dpe prior).2 = .ok r) :
    (sim = true → cu = some "simulation" ∧ ∃ bu, r = .simulationBundle bu) ∧
    (sim = false → (∃ mel, r = .normalPredictions mel) ∧
      (cu = some "wind_power" ∨ cu = some "wind_power_variability")) := by
  cases sim with
  | true =>
    refine ⟨fun _ => ?_, fun hff => (nomatch hff)⟩
    by_cases hcu : cu = some "simulation"
    · cases hsec : s.second with
      | none => simp [finalize, hcu, hsec] at h
      | some so =>
        simp only [finalize, hcu, hsec, if_true, reduceIte] at h
        exact ⟨hcu, ⟨_, (Except.ok.inj h).symm⟩⟩
    · simp [finalize, hcu] at h
  | false =>
    refine ⟨fun htt => (nomatch htt), fun _ => ?_⟩
    cases hsec : s.second with
    | none => simp [finalize, hsec] at h
    | some so =>
      by_cases h1 : cu = some "wind_power"
      · simp only [finalize, hsec, h1, Bool.false_eq_true, if_false, reduceIte] at h
        exact ⟨⟨_, (Except.ok.inj h).symm⟩, Or.inl h1⟩
      · by_cases h2 : cu = some "wind_power_variability"
        · simp only [finalize, hsec, h1, h2, Bool.false_eq_true, if_false, reduceIte] at h
          exact ⟨⟨_, (Except.ok.inj h).symm⟩, Or.inr h2⟩
        · simp [finalize, hsec, h1, h2] at h

/-- C7: a successful run returns the whole simulation bundle exactly in
simulation mode (where the usecase must be "simulation") and a single melted
predictions table in normal mode (where the usecase selects which); the
finalization of lines 417-466 returns, in simulation mode, the bundle with
both wide tables and the ramp in-sample / out-of-sample tables, and in
normal mode exactly the melted table of the requested usecase. -/
theorem C7_return_shape_per_mode :
    (∀ (oracle : ModelOracle) (p : EnsParams) (b m : DataFrame) (et : Int)
       (fr : List Int) (cu : Option String) (sim : Bool) (prior : Option Saved)
       (r : RunReturn),
      (create_ensemble_forecasts oracle p b m et fr cu sim prior).1 = .ok r →
        (sim = true → cu = some "simulation" ∧ ∃ bu, r = .simulationBundle bu) ∧
        (sim = false → (∃ mel, r = .normalPredictions mel) ∧
          (cu = some "wind_power" ∨ cu = some "wind_power_variability")))
    ∧ (∀ (p : EnsParams) (et : Int) (it : Nat) (s : LoopState) (dtt dpe : DataFrame)
         (prior : Option Saved) (so : SecondOut), s.second = some so →
        (∃ bu, finalize p true (some "simulation") et it s dtt dpe prior =
            (some (.simulationResults bu), .ok (.simulationBundle bu)) ∧
          bu.wind_power_predictions = concat_targets dpe dtt ∧
          bu.wind_power_variability_predictions =
            concat_targets so.df_var_ensemble so.df_2stage_test ∧
          bu.wind_power_ramp_predictions_outsample = so.var_pred_outsample_df ∧
          bu.wind_power_ramp_predictions_insample = so.var_pred_insample_df) ∧
        (finalize p false (some "wind_power") et it s dtt dpe prior).2 =
          .ok (.normalPredictions (melt_dataframe dpe)) ∧
        (finalize p false (some "wind_power_variability") et it s dtt dpe prior).2 =
          .ok (.normalPredictions so.df_var_ensemble_melt)) := by
  constructor
  · intro oracle p b m et fr cu sim prior r h
    cases hpre : preamble_check p b m with
    | error e =>
      rw [run_of_preamble_error oracle p b m et fr cu sim prior e hpre] at h
      exact Except.noConfusion h
    | ok pre =>
      cases hasm : assemble_stage p pre b et (fr.headD 0) with
      | error e =>
        rw [run_of_assemble_error oracle p b m et fr cu sim prior pre e hpre hasm] at h
        exact Except.noConfusion h
      | ok a =>
        rcases hloop : first_stage_loop oracle p pre a (load_or_initialize_results prior).1
            et (fr.headD 0) p.quantiles
            ⟨[], (load_or_initialize_results prior).2.1,
             (load_or_initialize_results prior).2.2, [], none⟩ with ⟨tr2, r2⟩
        cases r2 with
        | error e =>
          rw [run_of_loop_error oracle p b m et fr cu sim prior pre a tr2 e
            hpre hasm hloop] at h
          exact Except.noConfusion h
        | ok s =>
          rw [run_of_loop_ok oracle p b m et fr cu sim prior pre a tr2 s
            hpre hasm hloop] at h
          exact finalize_ok_shape _ _ _ _ _ _ _ _ _ _ h
  · intro p et it s dtt dpe prior so hsec
    refine ⟨⟨build_results_simulation et it s so dtt dpe, ?_, rfl, rfl, rfl, rfl⟩,
      ?_, ?_⟩
    · simp [finalize, hsec]
    · simp [finalize, hsec, build_results_normal]
    · simp [finalize, hsec, build_results_normal]

/-- C7 witness: the concrete simulation run returns a simulation bundle; the
finalization equations instantiated at a concrete state return the melted
wind-power table. -/
theorem C7_witness :
    ((some "simulation" : Option String) = some "simulation" ∧
      ∃ bu, getOkRun (run_demo (some "simulation") true).1 = .simulationBundle bu) ∧
    (finalize params_demo false (some "wind_power") 0 0
      ⟨[], [], [], [], some default⟩ DataFrame.empty DataFrame.empty none).2 =
      .ok (.normalPredictions (melt_dataframe DataFrame.empty)) := by
  constructor
  · exact (C7_return_shape_per_mode.1 oracle_neg params_demo df_buyer_demo
      df_market_demo 0 range_demo (some "simulation") true none
      (getOkRun (run_demo (some "simulation") true).1)
      (by with_unfolding_all rfl)).1 rfl
  · exact (C7_return_shape_per_mode.2 params_demo 0 0
      ⟨[], [], [], [], some default⟩ DataFrame.empty DataFrame.empty none
      default rfl).2.1


end MLEngine
